import Mathlib

/-!
Verification development for the adaptive pixel-clustering engine of the
color-quantize plugin (`src/plugins/color-quantize/src/lib.rs`).

Embedding conventions:
* `f32`/`f64` values are modelled as exact rationals (`Rat`).  IEEE rounding is
  not modelled; every tolerance in the source (`1e-8`, `1e-4`, ...) appears as
  the corresponding exact rational.
* The handful of transcendental library functions the source calls
  (`sqrt`, `ln`, `exp`, `powf(1.5)`, `cos`, `sin`, `atan2`, and the colorimetric
  conversions of the external `palette`/`art` crates) are supplied through an
  explicit record `RealOps`; structural theorems quantify over the record, and
  concrete evaluations instantiate it with `rat_ops`, whose `sqrt`/`ln` members
  are exact on the inputs exercised by those evaluations.
* `u32`/`u64` arithmetic is `Nat` arithmetic taken modulo `2^32`/`2^64`.
* IEEE infinities (used by the source as scan initialisers and as the `k = 1`
  separation sentinel) are modelled by the two-point extension `QInf` of `Rat`.
* The unbounded `loop` of the adaptive drivers is modelled with explicit fuel,
  returning `none` when the fuel runs out.
-/

set_option maxRecDepth 200000

/-- Four-channel feature vector: encoded color channels `c0 c1 c2` plus the
carried alpha channel `c3` (source type `[f32; 4]`). -/
structure Vec4 where
  c0 : Rat
  c1 : Rat
  c2 : Rat
  c3 : Rat
deriving DecidableEq, Repr, Inhabited

/-- `Rat` extended with a single positive infinity, mirroring the IEEE `f32`
infinity used by the source (`f32::INFINITY`). -/
inductive QInf where
  | fin (q : Rat)
  | inf
deriving DecidableEq, Repr, Inhabited

namespace QInf

/-- `a < b` on the extended rationals (IEEE comparison with `+inf`). -/
def lt : QInf → QInf → Bool
  | inf, _ => false
  | fin _, inf => true
  | fin a, fin b => decide (a < b)

/-- `a ≤ b` on the extended rationals. -/
def le : QInf → QInf → Bool
  | fin a, fin b => decide (a ≤ b)
  | fin _, inf => true
  | inf, fin _ => false
  | inf, inf => true

/-- Binary maximum on the extended rationals. -/
def max (a b : QInf) : QInf := if lt a b then b else a

/-- Add a finite rational (IEEE: `inf + q = inf`). -/
def addQ : QInf → Rat → QInf
  | fin a, q => fin (a + q)
  | inf, _ => inf

/-- Subtract a finite rational (IEEE: `inf - q = inf`). -/
def subQ : QInf → Rat → QInf
  | fin a, q => fin (a - q)
  | inf, _ => inf

end QInf

/-- The transcendental / external-library operations consumed by the engine.
Structural theorems hold for every instantiation; `rat_ops` below is the
concrete instantiation used for evaluations. Fields:
`sqrt` models `f32::sqrt` (on finite nonnegative inputs), `ln` models
`f64::ln` (on positive inputs), `exp` models `f64::exp`, `pow15` models
`f64::powf(1.5)`, `cosT x` models `cos(TAU * x)`, `sinT x` models
`sin(TAU * x)`, `atan2T y x` models `atan2(y, x) / TAU`.  The remaining four
fields model the colorimetric conversions of the external `palette` and
`art` crates used by `encode_feature`: `srgb_to_lin` is the sRGB transfer
function component-wise, `oklab_of_lin`/`oklch_of_lin` map linear RGB to
`(a, b, l)` resp. `(hue_degrees, chroma, l)`, `hsv_of_srgb` maps nonlinear
sRGB to `(hue_degrees, saturation, value)`, and `yiq_of_srgb` maps nonlinear
sRGB to `(y, i, q)`. -/
structure RealOps where
  sqrt : Rat → Rat
  ln : Rat → Rat
  exp : Rat → Rat
  pow15 : Rat → Rat
  cosT : Rat → Rat
  sinT : Rat → Rat
  atan2T : Rat → Rat → Rat
  srgb_to_lin : Rat → Rat
  oklab_of_lin : Rat → Rat → Rat → Rat × Rat × Rat
  oklch_of_lin : Rat → Rat → Rat → Rat × Rat × Rat
  hsv_of_srgb : Rat → Rat → Rat → Rat × Rat × Rat
  yiq_of_srgb : Rat → Rat → Rat → Rat × Rat × Rat

/-- `sqrt` lifted to the extended rationals (IEEE: `sqrt inf = inf`). -/
def QInf.sqrtI (ops : RealOps) : QInf → QInf
  | fin q => fin (ops.sqrt q)
  | inf => inf

/-- Source enum `ClusterMethod`. -/
inductive ClusterMethod where
  | KMeans
  | XMeans
  | GMeans
deriving DecidableEq, Repr

/-- Source enum `InitMethod`. -/
inductive InitMethod where
  | Random
  | Area
  | SelectedColors
  | KMeansParallel
deriving DecidableEq, Repr

/-- Source enum `ColorSpace`. -/
inductive ColorSpace where
  | LinearRgb
  | Oklab
  | Oklch
  | Hsv
  | Yiq
  | AlphaOnly
deriving DecidableEq, Repr

/-- `ColorSpace::has_circular_hue`: true only for Oklch and HSV. -/
def ColorSpace.has_circular_hue : ColorSpace → Bool
  | .Oklch => true
  | .Hsv => true
  | _ => false

/-- Source constant `MAX_CLUSTERS`. -/
def MAX_CLUSTERS : Nat := 64

/-- Source constant `SPLIT_DECISION_MAX_SAMPLES`. -/
def SPLIT_DECISION_MAX_SAMPLES : Nat := 4096

/-- Source constant `HAMERLY_EPSILON = 1.0e-4`. -/
def HAMERLY_EPSILON : Rat := 1 / 10000

/-- `2^32`, the modulus of `u32` arithmetic. -/
def U32 : Nat := 4294967296

/-- `2^64`, the modulus of `u64` arithmetic. -/
def U64 : Nat := 18446744073709551616

/-- Source struct `RenderSettings`.  `seed` is a `u32` value (a natural number
below `2^32`); selected colors are raw sRGB triples. -/
structure RenderSettings where
  cluster_method : ClusterMethod
  cluster_count : Nat
  auto_max_clusters : Nat
  max_iterations : Nat
  seed : Nat
  color_space : ColorSpace
  init_method : InitMethod
  area_similarity_threshold : Rat
  selected_colors : List (Rat × Rat × Rat)
  gmeans_alpha : Rat
  rgb_only : Bool
  use_gpu_if_available : Bool
deriving Repr

/-- Source struct `ClusterResult`. -/
structure ClusterResult where
  centroids : List Vec4
  labels : List Nat
  counts : List Nat
  sse_per_cluster : List Rat
deriving DecidableEq, Repr

/-- The empty `ClusterResult` (all four arrays empty). -/
def emptyClusterResult : ClusterResult :=
  { centroids := [], labels := [], counts := [], sse_per_cluster := [] }

/-- Source struct `XorShift64`: state is a `u64`, modelled as `Nat < 2^64`. -/
def XorShift64.new (seed : Nat) : Nat :=
  if seed % U64 = 0 then 11400714819323198485 else seed % U64

/-- `XorShift64::next_u64`: returns the new value together with the new state
(the two coincide for this generator). -/
def XorShift64.next_u64 (state : Nat) : Nat × Nat :=
  let x := state
  let x := (x ^^^ ((x <<< 13) % U64)) % U64
  let x := (x ^^^ (x >>> 7)) % U64
  let x := (x ^^^ ((x <<< 17) % U64)) % U64
  (x, x)

/-- `XorShift64::next_f64`: `(next_u64() >> 11) / 2^53` as an exact rational. -/
def XorShift64.next_f64 (state : Nat) : Rat × Nat :=
  let (x, st) := XorShift64.next_u64 state
  (((x >>> 11 : Nat) : Rat) / ((9007199254740992 : Nat) : Rat), st)

/-- `XorShift64::gen_index`. -/
def XorShift64.gen_index (state : Nat) (upper : Nat) : Nat × Nat :=
  if upper ≤ 1 then (0, state)
  else
    let (x, st) := XorShift64.next_u64 state
    (x % upper, st)

/-- Source helper `clamp01` (`value.clamp(0.0, 1.0)`). -/
def clamp01 (value : Rat) : Rat := min (max value 0) 1

/-- Source helper `sanitize01`.  Rationals are always finite, so this
coincides with `clamp01` in the embedding. -/
def sanitize01 (value : Rat) : Rat := clamp01 value

/-- Source helper `wrap01` (`value % 1.0`, shifted into `[0, 1)`). -/
def wrap01 (value : Rat) : Rat := value - ⌊value⌋

/-- Source helper `encode_signed`. -/
def encode_signed (value max_abs : Rat) : Rat :=
  if max_abs ≤ 0 then 1/2 else clamp01 ((value / max_abs + 1) * (1/2))

/-- Source helper `encode_pos`. -/
def encode_pos (value mx : Rat) : Rat :=
  if mx ≤ 0 then 0 else clamp01 (value / mx)

/-- `samples.len() / 4`: the number of 4-channel samples in a flat array. -/
def sample_count (samples : List Rat) : Nat := samples.length / 4

/-- Source helper `sample_at`: the 4 channels starting at `idx * 4` (the
source never reads out of bounds; out-of-range reads default to `0`). -/
def sample_at (samples : List Rat) (idx : Nat) : Vec4 :=
  { c0 := samples.getD (idx * 4) 0
    c1 := samples.getD (idx * 4 + 1) 0
    c2 := samples.getD (idx * 4 + 2) 0
    c3 := samples.getD (idx * 4 + 3) 0 }

/-- Source `circular_delta`: wrap-corrected difference of two hue values. -/
def circular_delta (a b : Rat) : Rat :=
  let d := a - b
  if 1/2 < d then d - 1
  else if d < -(1/2) then d + 1
  else d

/-- Source `feature_delta`: circular on channel 0 of circular-hue spaces. -/
def feature_delta (a b : Rat) (color_space : ColorSpace) : Rat :=
  if color_space.has_circular_hue then circular_delta a b else a - b

/-- Source `feature_distance_sq`: squared distance over channels 0..2,
alpha excluded. -/
def feature_distance_sq (a b : Vec4) (color_space : ColorSpace) : Rat :=
  let dx := feature_delta a.c0 b.c0 color_space
  let dy := a.c1 - b.c1
  let dz := a.c2 - b.c2
  dx * dx + dy * dy + dz * dz

/-- One step of the `nearest_centroid_idx` scan. -/
def nearest_step (sample : Vec4) (color_space : ColorSpace)
    (best : Nat × QInf) (p : Nat × Vec4) : Nat × QInf :=
  let dist := feature_distance_sq sample p.2 color_space
  if QInf.lt (QInf.fin dist) best.2 then (p.1, QInf.fin dist) else best

/-- Source `nearest_centroid_idx`: index of and squared distance to the
nearest centroid (first minimum wins; `inf` for an empty list). -/
def nearest_centroid_idx (sample : Vec4) (centroids : List Vec4)
    (color_space : ColorSpace) : Nat × QInf :=
  (centroids.enum).foldl (nearest_step sample color_space) (0, QInf.inf)

/-- Source `nearest_two_centroids`: index of the nearest centroid together
with the squared distances to the nearest and second-nearest centroid. -/
def nearest_two_centroids (sample : Vec4) (centroids : List Vec4)
    (color_space : ColorSpace) : Nat × QInf × QInf :=
  (centroids.enum).foldl
    (fun st p =>
      let dist := QInf.fin (feature_distance_sq sample p.2 color_space)
      if QInf.lt dist st.2.1 then (p.1, dist, st.2.1)
      else if QInf.lt dist st.2.2 then (st.1, st.2.1, dist)
      else st)
    (0, QInf.inf, QInf.inf)

/-- Source `half_min_center_distances` (Hamerly separation bounds `s[c]`). -/
def half_min_center_distances (ops : RealOps) (centroids : List Vec4)
    (color_space : ColorSpace) : List QInf :=
  let k := centroids.length
  if k = 0 then []
  else if k = 1 then [QInf.inf]
  else
    (List.range k).foldl
      (fun mins i =>
        (List.range (k - (i + 1))).foldl
          (fun mins dj =>
            let j := i + 1 + dj
            let dist := QInf.fin
              (ops.sqrt (feature_distance_sq (centroids.getD i default)
                (centroids.getD j default) color_space) * (1/2))
            let mins := if QInf.lt dist (mins.getD i QInf.inf)
              then mins.set i dist else mins
            if QInf.lt dist (mins.getD j QInf.inf)
              then mins.set j dist else mins)
          mins)
      (List.replicate k QInf.inf)

/-- One step of the `dedup_centroids` accumulation. -/
def dedup_step (color_space : ColorSpace) (unique : List Vec4)
    (centroid : Vec4) : List Vec4 :=
  if unique.any (fun c =>
      decide (feature_distance_sq c centroid color_space < 1 / 100000000))
  then unique
  else unique ++ [centroid]

/-- Source `dedup_centroids`: keep each centroid only if its squared distance
to every previously kept centroid is at least `1e-8`. -/
def dedup_centroids (centroids : List Vec4) (color_space : ColorSpace) :
    List Vec4 :=
  centroids.foldl (dedup_step color_space) []

/-- Source `nearly_same_feature`: all four channels within `1e-6`. -/
def nearly_same_feature (a b : Vec4) : Bool :=
  decide (|a.c0 - b.c0| < 1/1000000) && decide (|a.c1 - b.c1| < 1/1000000) &&
  decide (|a.c2 - b.c2| < 1/1000000) && decide (|a.c3 - b.c3| < 1/1000000)

/-- Source struct `ClusterAccum` (running sums per cluster; `Default` in the
source zero-initialises every field, matching `Inhabited` here). -/
structure ClusterAccum where
  sum0 : Rat
  sum1 : Rat
  sum2 : Rat
  sum3 : Rat
  hue_cos : Rat
  hue_sin : Rat
  count : Nat
deriving Repr, Inhabited

/-- `ClusterAccum::accumulate`. -/
def ClusterAccum.accumulate (acc : ClusterAccum) (ops : RealOps)
    (sample : Vec4) (color_space : ColorSpace) : ClusterAccum :=
  let acc := { acc with
    sum0 := acc.sum0 + sample.c0
    sum1 := acc.sum1 + sample.c1
    sum2 := acc.sum2 + sample.c2
    sum3 := acc.sum3 + sample.c3 }
  let acc := if color_space.has_circular_hue then
      { acc with
        hue_cos := acc.hue_cos + ops.cosT (wrap01 sample.c0)
        hue_sin := acc.hue_sin + ops.sinT (wrap01 sample.c0) }
    else acc
  { acc with count := acc.count + 1 }

/-- `ClusterAccum::mean` (circular mean on the hue channel, every component
clamped or wrapped into `[0, 1]`). -/
def ClusterAccum.mean (acc : ClusterAccum) (ops : RealOps)
    (color_space : ColorSpace) : Vec4 :=
  if acc.count = 0 then ⟨0, 0, 0, 1⟩
  else
    let inv : Rat := 1 / (acc.count : Rat)
    let c0 :=
      if color_space.has_circular_hue then
        if |acc.hue_cos| < 1 / 100000000 ∧ |acc.hue_sin| < 1 / 100000000 then
          wrap01 (acc.sum0 * inv)
        else
          wrap01 (ops.atan2T acc.hue_sin acc.hue_cos)
      else clamp01 (acc.sum0 * inv)
    ⟨c0, clamp01 (acc.sum1 * inv), clamp01 (acc.sum2 * inv),
      clamp01 (acc.sum3 * inv)⟩

/-- Per-sample state of one accelerated Lloyd pass: new label, both Hamerly
bounds and whether the label changed. -/
structure KStep where
  label : Nat
  upper : QInf
  lower : QInf
  changed : Bool
deriving Repr

/-- One sample of one Lloyd iteration of `run_kmeans` (source lines
2202-2227): the Hamerly skip test, the tightened retest, and the full
nearest/second-nearest rescan. -/
def kmeans_sample_step (ops : RealOps) (samples : List Rat)
    (centroids : List Vec4) (separation : List QInf)
    (color_space : ColorSpace) (idx label : Nat) (upper lower : QInf) :
    KStep :=
  let sample := sample_at samples idx
  let bound := QInf.max (separation.getD label QInf.inf) lower
  if QInf.le upper bound then ⟨label, upper, lower, false⟩
  else
    let current_dist :=
      ops.sqrt (feature_distance_sq sample (centroids.getD label default)
        color_space)
    if QInf.le (QInf.fin current_dist) bound then
      ⟨label, QInf.fin current_dist, lower, false⟩
    else
      let (best, bd, sd) := nearest_two_centroids sample centroids color_space
      ⟨best, QInf.sqrtI ops bd, QInf.sqrtI ops sd, decide (best ≠ label)⟩

/-- Centroid recomputation for one cluster (source lines 2232-2248): the
mean of the accumulated members, or a random sample when the cluster is
empty; also records the centroid movement. -/
def centroid_update_step (ops : RealOps) (samples : List Rat)
    (color_space : ColorSpace) (sc : Nat) (centroids : List Vec4)
    (accums : List ClusterAccum) (st : List Vec4 × List Rat × Nat)
    (c : Nat) : List Vec4 × List Rat × Nat :=
  let old := centroids.getD c default
  let (nc, rng2) :=
    if (accums.getD c default).count = 0 then
      let (i, r) := XorShift64.gen_index st.2.2 sc
      (sample_at samples i, r)
    else ((accums.getD c default).mean ops color_space, st.2.2)
  let shift := ops.sqrt (feature_distance_sq old nc color_space)
  (st.1 ++ [nc], st.2.1 ++ [shift], rng2)

/-- One full Lloyd iteration of `run_kmeans` (assignment pass, accumulation,
centroid recomputation with reseed-on-empty, bound maintenance).  Returns the
new centroids, labels, bounds, generator state, the `changed` flag and the
maximal centroid movement. -/
def kmeans_iteration (ops : RealOps) (samples : List Rat)
    (color_space : ColorSpace) (k : Nat) (centroids : List Vec4)
    (labels : List Nat) (upper lower : List QInf) (rng : Nat) :
    List Vec4 × List Nat × List QInf × List QInf × Nat × Bool × Rat :=
  let sc := sample_count samples
  let separation := half_min_center_distances ops centroids color_space
  let steps := (List.range sc).map (fun idx =>
    kmeans_sample_step ops samples centroids separation color_space idx
      (labels.getD idx 0) (upper.getD idx QInf.inf) (lower.getD idx QInf.inf))
  let labels1 := steps.map (fun st => st.label)
  let changed := steps.any (fun st => st.changed)
  let accums := (steps.enum).foldl
    (fun accs p =>
      accs.set p.2.label
        ((accs.getD p.2.label default).accumulate ops (sample_at samples p.1)
          color_space))
    (List.replicate k (default : ClusterAccum))
  let upd := (List.range k).foldl
    (centroid_update_step ops samples color_space sc centroids accums)
    ([], [], rng)
  let centroids1 := upd.1
  let movements := upd.2.1
  let rng1 := upd.2.2
  let max_move := movements.foldl max 0
  let upper1 := steps.map (fun st =>
    QInf.addQ st.upper (movements.getD st.label 0))
  let lower1 := steps.map (fun st =>
    QInf.max (QInf.subQ st.lower max_move) (QInf.fin 0))
  (centroids1, labels1, upper1, lower1, rng1, changed, max_move)

/-- The bounded Lloyd loop of `run_kmeans` (`for _ in 0..max_iterations.max(1)`
with the early break when no label changed and the maximal movement is at most
`HAMERLY_EPSILON`).  Returns the final centroids, labels and generator
state. -/
def kmeans_loop (ops : RealOps) (samples : List Rat)
    (color_space : ColorSpace) (k : Nat) :
    Nat → List Vec4 → List Nat → List QInf → List QInf → Nat →
      List Vec4 × List Nat × Nat
  | 0, centroids, labels, _, _, rng => (centroids, labels, rng)
  | iters + 1, centroids, labels, upper, lower, rng =>
    let (centroids1, labels1, upper1, lower1, rng1, changed, max_move) :=
      kmeans_iteration ops samples color_space k centroids labels upper lower
        rng
    if ¬changed ∧ max_move ≤ HAMERLY_EPSILON then (centroids1, labels1, rng1)
    else kmeans_loop ops samples color_space k iters centroids1 labels1 upper1
      lower1 rng1

/-- One step of the final counts/SSE recomputation of `run_kmeans` (source
lines 2266-2274): increment `counts[label]` and add the squared distance of
sample `p.1` to centroid `p.2` into `sse_per_cluster[label]`. -/
def count_sse_step (samples : List Rat) (centroids : List Vec4)
    (color_space : ColorSpace) (st : List Nat × List Rat) (p : Nat × Nat) :
    List Nat × List Rat :=
  let dist := feature_distance_sq (sample_at samples p.1)
    (centroids.getD p.2 default) color_space
  (st.1.set p.2 (st.1.getD p.2 0 + 1), st.2.set p.2 (st.2.getD p.2 0 + dist))

/-- The deduplicated working centroid set of `run_kmeans` (source lines
2178-2181): dedup the initial centroids, falling back to the first sample
when everything collapsed. -/
def kmeans_initial_set (samples : List Rat) (initial_centroids : List Vec4)
    (color_space : ColorSpace) : List Vec4 :=
  let centroids0 := dedup_centroids initial_centroids color_space
  if centroids0 = [] then [sample_at samples 0] else centroids0

/-- The non-degenerate body of `run_kmeans` (initial exact scan, bounded
Lloyd loop, exact final re-assignment, counts/SSE recomputation). -/
def run_kmeans_core (ops : RealOps) (samples : List Rat)
    (initial_centroids : List Vec4) (max_iterations : Nat)
    (color_space : ColorSpace) (seed : Nat) : ClusterResult :=
  let sc := sample_count samples
  let centroids0 := kmeans_initial_set samples initial_centroids color_space
  let k := centroids0.length
  let rng := XorShift64.new (seed ^^^ 11660597839392280832)
  let init := (List.range sc).map (fun idx =>
    let (b, bd, sd) :=
      nearest_two_centroids (sample_at samples idx) centroids0 color_space
    (b, QInf.sqrtI ops bd, QInf.sqrtI ops sd))
  let labels := init.map (fun t => t.1)
  let upper := init.map (fun t => t.2.1)
  let lower := init.map (fun t => t.2.2)
  let (centroids1, _, _) := kmeans_loop ops samples color_space k
    (max max_iterations 1) centroids0 labels upper lower rng
  let labels_fin := (List.range sc).map (fun idx =>
    (nearest_centroid_idx (sample_at samples idx) centroids1 color_space).1)
  let cs := (labels_fin.enum).foldl
    (count_sse_step samples centroids1 color_space)
    (List.replicate k 0, List.replicate k 0)
  { centroids := centroids1, labels := labels_fin, counts := cs.1,
    sse_per_cluster := cs.2 }

/-- Source `run_kmeans`: the accelerated Lloyd engine.  Degenerate inputs
(zero samples or an empty initial centroid list) return the empty result;
otherwise `run_kmeans_core` runs. -/
def run_kmeans (ops : RealOps) (samples : List Rat)
    (initial_centroids : List Vec4) (max_iterations : Nat)
    (color_space : ColorSpace) (seed : Nat) : ClusterResult :=
  if sample_count samples = 0 ∨ initial_centroids = [] then emptyClusterResult
  else run_kmeans_core ops samples initial_centroids max_iterations
    color_space seed

/-- Newton iteration for the integer square root (`fuel`-bounded structural
recursion; the fuel below always suffices to reach the fixed point). -/
def isqrt_go (n : Nat) : Nat → Nat → Nat
  | 0, x => x
  | fuel + 1, x =>
    let y := (x + n / x) / 2
    if y < x then isqrt_go n fuel y else x

/-- Floor integer square root (Newton method, 4096 iterations of fuel,
enough for every number below `2^8000`). -/
def isqrt (n : Nat) : Nat :=
  if n = 0 then 0 else isqrt_go n 4096 n

/-- Binary logarithm by fuelled halving. -/
def log2_fuel : Nat → Nat → Nat
  | 0, _ => 0
  | fuel + 1, n => if n < 2 then 0 else log2_fuel fuel (n / 2) + 1

/-- Floor binary logarithm (fuel enough for every number below `2^4096`). -/
def nat_log2 (n : Nat) : Nat := log2_fuel 4096 n

/-- Floor square root on the rationals: `sqrt (a/b) = ⌊sqrt (a*b)⌋ / b`.
Exact whenever the argument is the square of a rational with denominator
dividing `b`; the concrete evaluations below only consult it at such
arguments. -/
def rat_sqrt (q : Rat) : Rat :=
  if q ≤ 0 then 0
  else ((isqrt (q.num.toNat * q.den) : Nat) : Rat) / ((q.den : Nat) : Rat)

/-- Rational approximation of `ln 2` (error below `1e-16`). -/
def LN2_APPROX : Rat := 6931471805599453 / 10000000000000000

/-- `ln m` for `m ∈ [1, 2)` via the atanh series, truncated after the ninth
power (error below `2e-6` on that interval). -/
def ln_frac (m : Rat) : Rat :=
  let t := (m - 1) / (m + 1)
  let t2 := t * t
  2 * t * (1 + t2 / 3 + t2 * t2 / 5 + t2 * t2 * t2 / 7 + t2 * t2 * t2 * t2 / 9)

/-- `ln n` for a natural number via binary scaling: `n = 2^b * m`,
`ln n = b ln 2 + ln m`. -/
def ln_nat (n : Nat) : Rat :=
  if n = 0 then 0
  else
    let b := nat_log2 n
    (b : Rat) * LN2_APPROX + ln_frac ((n : Rat) / ((2 ^ b : Nat) : Rat))

/-- Rational approximation of the natural logarithm (`ln (a/b) = ln a - ln b`),
accurate to a few parts in `1e-5`; every comparison below that consults it has
a margin many orders of magnitude wider. -/
def ln_q (q : Rat) : Rat :=
  if q ≤ 0 then 0 else ln_nat q.num.toNat - ln_nat q.den

/-- Concrete operation record for evaluations.  `sqrt` and `ln` are the
rational approximations above (exact, respectively accurate far beyond the
decision margins, on every input the evaluations reach); `pow15` is
`x * sqrt x`.  The remaining fields are placeholders: no evaluation in this
file ever reaches them (all concrete runs use `ColorSpace.LinearRgb`, the
`Random` initializer, and the k-means / x-means drivers only). -/
def rat_ops : RealOps :=
  { sqrt := rat_sqrt
    ln := ln_q
    exp := fun _ => 1
    pow15 := fun x => x * rat_sqrt x
    cosT := fun _ => 1
    sinT := fun _ => 0
    atan2T := fun _ _ => 0
    srgb_to_lin := fun x => x
    oklab_of_lin := fun r g b => (r, g, b)
    oklch_of_lin := fun r g b => (r, g, b)
    hsv_of_srgb := fun r g b => (r, g, b)
    yiq_of_srgb := fun r g b => (r, g, b) }

/-- One step of the `build_cluster_indices` accumulation: append sample
index `p.1` to the member list of cluster `p.2` (when in range). -/
def cluster_indices_step (cluster_count : Nat)
    (clusters : List (List Nat)) (p : Nat × Nat) : List (List Nat) :=
  if p.2 < cluster_count then
    clusters.set p.2 (clusters.getD p.2 [] ++ [p.1])
  else clusters

/-- Source `build_cluster_indices`: member indices of each cluster. -/
def build_cluster_indices (labels : List Nat) (cluster_count : Nat) :
    List (List Nat) :=
  if cluster_count = 0 then []
  else (labels.enum).foldl (cluster_indices_step cluster_count)
    (List.replicate cluster_count [])

/-- Source `make_split_seeds`: per-axis variance around the parent centroid,
pick the axis of maximal variance, offset the parent by
`±clamp(0.5σ, 0.01, 0.25)` along it. -/
def make_split_seeds (ops : RealOps) (samples : List Rat)
    (indices : List Nat) (parent_centroid : Vec4)
    (color_space : ColorSpace) : Vec4 × Vec4 :=
  let n : Rat := ((max indices.length 1 : Nat) : Rat)
  let sums := indices.foldl
    (fun (v : Rat × Rat × Rat) idx =>
      let s := sample_at samples idx
      let d0 := feature_delta s.c0 parent_centroid.c0 color_space
      let d1 := s.c1 - parent_centroid.c1
      let d2 := s.c2 - parent_centroid.c2
      (v.1 + d0 * d0, v.2.1 + d1 * d1, v.2.2 + d2 * d2))
    (0, 0, 0)
  let var0 := sums.1 / n
  let var1 := sums.2.1 / n
  let var2 := sums.2.2 / n
  let axis_sigma : Nat × Rat :=
    if var1 ≤ var0 ∧ var2 ≤ var0 then (0, ops.sqrt var0)
    else if var2 ≤ var1 then (1, ops.sqrt var1)
    else (2, ops.sqrt var2)
  let delta := min (max (axis_sigma.2 * (1/2)) (1/100)) (1/4)
  match axis_sigma.1 with
  | 0 =>
    if color_space.has_circular_hue then
      ({ parent_centroid with c0 := wrap01 (parent_centroid.c0 - delta) },
        { parent_centroid with c0 := wrap01 (parent_centroid.c0 + delta) })
    else
      ({ parent_centroid with c0 := clamp01 (parent_centroid.c0 - delta) },
        { parent_centroid with c0 := clamp01 (parent_centroid.c0 + delta) })
  | 1 =>
    ({ parent_centroid with c1 := clamp01 (parent_centroid.c1 - delta) },
      { parent_centroid with c1 := clamp01 (parent_centroid.c1 + delta) })
  | _ =>
    ({ parent_centroid with c2 := clamp01 (parent_centroid.c2 - delta) },
      { parent_centroid with c2 := clamp01 (parent_centroid.c2 + delta) })

/-- Source `collect_subset_samples`: flat sample array of a subset. -/
def collect_subset_samples (samples : List Rat) (indices : List Nat) :
    List Rat :=
  indices.foldl
    (fun acc idx =>
      let s := sample_at samples idx
      acc ++ [s.c0, s.c1, s.c2, s.c3])
    []

/-- Source `sample_indices_for_split`: reservoir-style selection of at most
`limit` member indices. -/
def sample_indices_for_split (indices : List Nat) (limit seed : Nat) :
    List Nat :=
  if indices.length ≤ limit then indices
  else
    (indices.foldl
      (fun (st : List Nat × Nat × Nat × Nat) idx =>
        let (out, remaining, need, rng) := st
        if need = 0 then st
        else
          let (r, rng2) := XorShift64.gen_index rng remaining
          if r < need then (out ++ [idx], remaining - 1, need - 1, rng2)
          else (out, remaining - 1, need, rng2))
      ([], indices.length, limit,
        XorShift64.new (seed ^^^ 15934392622220692531))).1

/-- Source `estimate_two_centroid_sse`: SSE when each member goes to the
nearer of the two child centroids. -/
def estimate_two_centroid_sse (samples : List Rat) (indices : List Nat)
    (c1 c2 : Vec4) (color_space : ColorSpace) : Rat :=
  indices.foldl
    (fun sse idx =>
      let s := sample_at samples idx
      let d1 := feature_distance_sq s c1 color_space
      let d2 := feature_distance_sq s c2 color_space
      sse + min d1 d2)
    0

/-- The exact rational value of the `f64` constant `std::f64::consts::PI`. -/
def PI_F64 : Rat := 884279719003555 / 281474976710656

/-- Source `bic_score`; `none` models the `f64::NEG_INFINITY` early return. -/
def bic_score (ops : RealOps) (sse : Rat)
    (sample_cnt cluster_cnt dims : Nat) : Option Rat :=
  if sample_cnt ≤ cluster_cnt ∨ cluster_cnt = 0 ∨ dims = 0 then none
  else
    let n : Rat := (sample_cnt : Rat)
    let k : Rat := (cluster_cnt : Rat)
    let d : Rat := (dims : Rat)
    let variance :=
      max (sse / (((sample_cnt - cluster_cnt : Nat) : Nat) : Rat))
        (1 / 1000000000000)
    let params := k * (d + 1)
    let log_likelihood :=
      -(1/2) * n * d * (ops.ln (2 * PI_F64 * variance) + 1)
    some (log_likelihood - (1/2) * params * ops.ln n)

/-- `bic_children > bic_parent + 0.5` with `none` as negative infinity. -/
def bic_gt (children parent : Option Rat) : Bool :=
  match children, parent with
  | some c, some p => decide (p + 1/2 < c)
  | some _, none => true
  | none, _ => false

/-- Source `build_split_projections`: signed projections of the subset onto
the normalized axis through the two child centroids. -/
def build_split_projections (ops : RealOps) (subset_samples : List Rat)
    (parent_centroid child_a child_b : Vec4) (color_space : ColorSpace) :
    List Rat :=
  let axis0 := feature_delta child_b.c0 child_a.c0 color_space
  let axis1 := child_b.c1 - child_a.c1
  let axis2 := child_b.c2 - child_a.c2
  let axis_norm := ops.sqrt (axis0 * axis0 + axis1 * axis1 + axis2 * axis2)
  if axis_norm ≤ 1 / 100000000 then []
  else
    let inv_norm := 1 / axis_norm
    let ux := axis0 * inv_norm
    let uy := axis1 * inv_norm
    let uz := axis2 * inv_norm
    (List.range (sample_count subset_samples)).map (fun idx =>
      let s := sample_at subset_samples idx
      let d0 := feature_delta s.c0 parent_centroid.c0 color_space
      let d1 := s.c1 - parent_centroid.c1
      let d2 := s.c2 - parent_centroid.c2
      d0 * ux + d1 * uy + d2 * uz)

/-- Source `jarque_bera_p_value`: skewness/kurtosis normality statistic with
the approximate p-value `exp(-JB/2)` clamped into `[0, 1]`. -/
def jarque_bera_p_value (ops : RealOps) (samples : List Rat) : Rat :=
  let n := samples.length
  if n < 8 then 1
  else
    let nf : Rat := (n : Rat)
    let mean := samples.foldl (· + ·) 0 / nf
    let ms := samples.foldl
      (fun (m : Rat × Rat × Rat) v =>
        let d := v - mean
        let d2 := d * d
        (m.1 + d2, m.2.1 + d2 * d, m.2.2 + d2 * d2))
      (0, 0, 0)
    let m2 := ms.1 / nf
    let m3 := ms.2.1 / nf
    let m4 := ms.2.2 / nf
    if m2 ≤ 1 / 1000000000000000000 then 1
    else
      let skew := m3 / ops.pow15 m2
      let kurtosis := m4 / (m2 * m2)
      let jb := (nf / 6) * (skew * skew + (1/4) * ((kurtosis - 3) * (kurtosis - 3)))
      min (max (ops.exp (-(1/2) * max jb 0)) 0) 1

/-- Source `split_cluster_xmeans`: trial split of one cluster, accepted only
when the two-cluster BIC beats the parent BIC by more than `0.5`. -/
def split_cluster_xmeans (ops : RealOps) (samples : List Rat)
    (indices : List Nat) (parent_centroid : Vec4) (parent_sse : Rat)
    (settings : RenderSettings) (seed : Nat) : Option (Vec4 × Vec4) :=
  let sampled_indices :=
    sample_indices_for_split indices SPLIT_DECISION_MAX_SAMPLES seed
  let sab := make_split_seeds ops samples sampled_indices parent_centroid
    settings.color_space
  let subset := collect_subset_samples samples sampled_indices
  let lres := run_kmeans ops subset [sab.1, sab.2]
    (min settings.max_iterations 20) settings.color_space seed
  if lres.centroids.length ≠ 2 ∨ lres.counts.contains 0 then none
  else
    let child_sse := estimate_two_centroid_sse samples indices
      (lres.centroids.getD 0 default) (lres.centroids.getD 1 default)
      settings.color_space
    let n := indices.length
    if n < 3 then none
    else if bic_gt (bic_score ops child_sse n 2 3)
        (bic_score ops parent_sse n 1 3) then
      some (lres.centroids.getD 0 default, lres.centroids.getD 1 default)
    else none

/-- Source `split_cluster_gmeans`: trial split accepted when the Jarque-Bera
p-value of the projected subset falls below the configured alpha. -/
def split_cluster_gmeans (ops : RealOps) (samples : List Rat)
    (indices : List Nat) (parent_centroid : Vec4)
    (settings : RenderSettings) (seed : Nat) : Option (Vec4 × Vec4) :=
  let sampled_indices :=
    sample_indices_for_split indices SPLIT_DECISION_MAX_SAMPLES seed
  let sab := make_split_seeds ops samples sampled_indices parent_centroid
    settings.color_space
  let subset := collect_subset_samples samples sampled_indices
  let lres := run_kmeans ops subset [sab.1, sab.2]
    (min settings.max_iterations 20) settings.color_space seed
  if lres.centroids.length ≠ 2 ∨ lres.counts.any (fun c => c < 2) then none
  else
    let projections := build_split_projections ops subset parent_centroid
      (lres.centroids.getD 0 default) (lres.centroids.getD 1 default)
      settings.color_space
    if projections.length < 8 then none
    else if jarque_bera_p_value ops projections < settings.gmeans_alpha then
      some (lres.centroids.getD 0 default, lres.centroids.getD 1 default)
    else none

/-- Source constant `OKLAB_AB_MAX = 0.5`. -/
def OKLAB_AB_MAX : Rat := 1/2

/-- Source constant `OKLCH_CHROMA_MAX = 0.4`. -/
def OKLCH_CHROMA_MAX : Rat := 2/5

/-- Source constant `YIQ_I_MAX = 0.5957`. -/
def YIQ_I_MAX : Rat := 5957/10000

/-- Source constant `YIQ_Q_MAX = 0.5226`. -/
def YIQ_Q_MAX : Rat := 5226/10000

/-- Source `encode_feature`: sRGB to the numeric encoding of the chosen
feature space.  The colorimetric conversions of the external crates are the
corresponding `RealOps` fields. -/
def encode_feature (ops : RealOps) (rgb : Rat × Rat × Rat)
    (color_space : ColorSpace) : Rat × Rat × Rat :=
  let r := clamp01 rgb.1
  let g := clamp01 rgb.2.1
  let b := clamp01 rgb.2.2
  let lr := ops.srgb_to_lin r
  let lg := ops.srgb_to_lin g
  let lb := ops.srgb_to_lin b
  match color_space with
  | .LinearRgb => (clamp01 lr, clamp01 lg, clamp01 lb)
  | .Oklab =>
    let abl := ops.oklab_of_lin lr lg lb
    (encode_signed abl.1 OKLAB_AB_MAX, encode_signed abl.2.1 OKLAB_AB_MAX,
      clamp01 abl.2.2)
  | .Oklch =>
    let hcl := ops.oklch_of_lin lr lg lb
    (wrap01 (hcl.1 / 360), encode_pos hcl.2.1 OKLCH_CHROMA_MAX,
      clamp01 hcl.2.2)
  | .Hsv =>
    let hsv := ops.hsv_of_srgb r g b
    (wrap01 (hsv.1 / 360), clamp01 hsv.2.1, clamp01 hsv.2.2)
  | .Yiq =>
    let yiq := ops.yiq_of_srgb r g b
    (encode_signed yiq.2.1 YIQ_I_MAX, encode_signed yiq.2.2 YIQ_Q_MAX,
      clamp01 yiq.1)
  | .AlphaOnly =>
    (clamp01 (2126/10000 * lr + 7152/10000 * lg + 722/10000 * lb), 0, 0)

/-- Rejection-sampling loop of `init_centroids_random` (`attempts` is the
remaining attempt budget `16 * target_k`). -/
def init_centroids_random_go (samples : List Rat) (sc target_k : Nat) :
    Nat → List Vec4 → Nat → List Vec4
  | 0, centroids, _ => centroids
  | attempts + 1, centroids, rng =>
    if target_k ≤ centroids.length then centroids
    else
      let (idx, rng2) := XorShift64.gen_index rng sc
      let sample := sample_at samples idx
      let centroids2 :=
        if centroids.any (fun c => nearly_same_feature c sample) then centroids
        else centroids ++ [sample]
      init_centroids_random_go samples sc target_k attempts centroids2 rng2

/-- Source `init_centroids_random`. -/
def init_centroids_random (samples : List Rat) (target_k seed : Nat) :
    List Vec4 :=
  let sc := sample_count samples
  if sc = 0 ∨ target_k = 0 then []
  else
    let out := init_centroids_random_go samples sc target_k (target_k * 16)
      [] (XorShift64.new (seed ^^^ 1311862290451066625))
    if out = [] then [sample_at samples 0] else out

/-- Source struct `AreaGroup`. -/
structure AreaGroup where
  accum : ClusterAccum
  count : Nat
deriving Repr, Inhabited

/-- `AreaGroup::add`. -/
def AreaGroup.add (g : AreaGroup) (ops : RealOps) (sample : Vec4)
    (color_space : ColorSpace) : AreaGroup :=
  { accum := g.accum.accumulate ops sample color_space, count := g.count + 1 }

/-- `AreaGroup::new`. -/
def AreaGroup.mk0 (ops : RealOps) (sample : Vec4)
    (color_space : ColorSpace) : AreaGroup :=
  AreaGroup.add { accum := default, count := 0 } ops sample color_space

/-- `AreaGroup::center`. -/
def AreaGroup.center (g : AreaGroup) (ops : RealOps)
    (color_space : ColorSpace) : Vec4 :=
  g.accum.mean ops color_space

/-- Streaming grouping pass of `init_centroids_area_based` (`budget` is the
remaining sample budget, 50000 at the start). -/
def init_centroids_area_go (ops : RealOps) (samples : List Rat)
    (color_space : ColorSpace) (sc step : Nat) (threshold_sq : Rat) :
    Nat → Nat → List AreaGroup → List AreaGroup
  | 0, _, groups => groups
  | budget + 1, idx, groups =>
    if sc ≤ idx then groups
    else
      let sample := sample_at samples idx
      let bestp := (groups.enum).foldl
        (fun (best : Option (Nat × Rat)) p =>
          let dist := feature_distance_sq sample (p.2.center ops color_space)
            color_space
          match best with
          | none => some (p.1, dist)
          | some b => if dist < b.2 then some (p.1, dist) else best)
        none
      let groups2 :=
        match bestp with
        | some gb =>
          if gb.2 ≤ threshold_sq then
            groups.set gb.1 ((groups.getD gb.1 default).add ops sample
              color_space)
          else groups ++ [AreaGroup.mk0 ops sample color_space]
        | none => groups ++ [AreaGroup.mk0 ops sample color_space]
      init_centroids_area_go ops samples color_space sc step threshold_sq
        budget (idx + step) groups2

/-- Source `init_centroids_area_based`: stream up to 50000 stride-subsampled
pixels into similarity groups, stable-sort groups by population descending,
take the top-k means, pad with `init_centroids_random` if short. -/
def init_centroids_area_based (ops : RealOps) (samples : List Rat)
    (target_k : Nat) (threshold : Rat) (color_space : ColorSpace)
    (seed : Nat) : List Vec4 :=
  let sc := sample_count samples
  if sc = 0 ∨ target_k = 0 then []
  else
    let max_samples := 50000
    let step := Nat.max (sc / max_samples) 1
    let t := max threshold (1/10000)
    let threshold_sq := t * t
    let groups := init_centroids_area_go ops samples color_space sc step
      threshold_sq max_samples 0 []
    let sorted := groups.mergeSort (fun a b => decide (b.count ≤ a.count))
    let centroids := (sorted.take target_k).map
      (fun g => g.center ops color_space)
    if centroids.length < target_k then
      centroids ++ init_centroids_random samples
        (target_k - centroids.length) seed
    else centroids

/-- Source `init_centroids_selected`: encode the user-selected colors in
order (alpha fixed at 1), stopping once `target_k` is reached, padding any
shortfall with `init_centroids_random`. -/
def init_centroids_selected (ops : RealOps) (samples : List Rat)
    (settings : RenderSettings) (target_k seed : Nat) : List Vec4 :=
  let centroids := (settings.selected_colors.foldl
    (fun (st : List Vec4 × Bool) rgb =>
      if st.2 then st
      else
        let f := encode_feature ops rgb settings.color_space
        let cs := st.1 ++ [⟨f.1, f.2.1, f.2.2, 1⟩]
        (cs, target_k ≤ cs.length))
    ([], false)).1
  if centroids.length < target_k then
    centroids ++ init_centroids_random samples (target_k - centroids.length)
      seed
  else centroids

/-- Source `weighted_pick_usize`: roulette pick proportional to integer
weights; `none` when all weights are zero. -/
def weighted_pick_usize (weights : List Nat) (rng : Nat) :
    Option Nat × Nat :=
  let total := weights.foldl (· + ·) 0
  if total = 0 then (none, rng)
  else
    let (x, rng2) := XorShift64.next_u64 rng
    let pick := (weights.enum).foldl
      (fun (st : Option Nat × Nat) p =>
        match st.1 with
        | some _ => st
        | none => if st.2 < p.2 then (some p.1, st.2) else (none, st.2 - p.2))
      (none, x % total)
    (some (pick.1.getD (weights.length - 1)), rng2)

/-- Exact nearest-candidate distance refresh of
`init_centroids_kmeans_parallel` (source lines 2392-2402). -/
def kmpp_update_nearest (samples : List Rat) (color_space : ColorSpace)
    (candidates : List Vec4) (sc : Nat) (nearest_d2 : List Rat) :
    List Rat :=
  (List.range sc).map (fun idx =>
    let sample := sample_at samples idx
    candidates.foldl
      (fun best c =>
        let d := feature_distance_sq sample c color_space
        if d < best then d else best)
      (nearest_d2.getD idx 0))

/-- The five oversampling rounds of `init_centroids_kmeans_parallel`
(independent per-point inclusion, dedup, optional early break on candidate
blow-up, nearest-distance refresh). -/
def kmpp_rounds (samples : List Rat) (color_space : ColorSpace)
    (sc oversampling : Nat) :
    Nat → List Vec4 → List Rat → Nat → List Vec4 × Nat
  | 0, candidates, _, rng => (candidates, rng)
  | rounds + 1, candidates, nearest_d2, rng =>
    let phi := max (nearest_d2.foldl (· + ·) 0) (1 / 1000000000000)
    let st := (List.range sc).foldl
      (fun (st : List Vec4 × Nat) idx =>
        let p := min ((oversampling : Rat) * nearest_d2.getD idx 0 / phi) 1
        let (r, rng2) := XorShift64.next_f64 st.2
        if r < p then (st.1 ++ [sample_at samples idx], rng2)
        else (st.1, rng2))
      (candidates, rng)
    let candidates2 := dedup_centroids st.1 color_space
    if MAX_CLUSTERS * 8 < candidates2.length then (candidates2, st.2)
    else
      let nearest2 := kmpp_update_nearest samples color_space candidates2 sc
        nearest_d2
      kmpp_rounds samples color_space sc oversampling rounds candidates2
        nearest2 st.2

/-- The weighted D²-sampling loop of `init_centroids_kmeans_parallel`
(source lines 2438-2480); `fuel` bounds the remaining picks. -/
def kmpp_chosen_go (samples : List Rat) (color_space : ColorSpace)
    (candidates : List Vec4) (weights : List Nat) (target_k first_idx : Nat) :
    Nat → List Vec4 → List Bool → List Rat → Nat → List Vec4 × Nat
  | 0, chosen, _, _, rng => (chosen, rng)
  | fuel + 1, chosen, chosen_mask, cand_d2, rng =>
    if target_k ≤ chosen.length then (chosen, rng)
    else
      let score_sum := (List.range candidates.length).foldl
        (fun s idx =>
          if chosen_mask.getD idx false ∨ weights.getD idx 0 = 0 then s
          else s + ((weights.getD idx 0 : Nat) : Rat) * cand_d2.getD idx 0)
        0
      let pick :=
        if score_sum ≤ 1 / 100000000000000000000 then
          ((((List.range candidates.length).filter
              (fun i => ¬ chosen_mask.getD i false)).foldl
            (fun (best : Option Nat) i =>
              match best with
              | none => some i
              | some b =>
                if weights.getD b 0 ≤ weights.getD i 0 then some i else best)
            none).getD first_idx, rng)
        else
          let (t0, rng2) := XorShift64.next_f64 rng
          let scan := (List.range candidates.length).foldl
            (fun (st : Option Nat × Rat) idx =>
              match st.1 with
              | some _ => st
              | none =>
                if chosen_mask.getD idx false ∨ weights.getD idx 0 = 0 then st
                else
                  let th := st.2 -
                    ((weights.getD idx 0 : Nat) : Rat) * cand_d2.getD idx 0
                  if th ≤ 0 then (some idx, th) else (none, th))
            (none, t0 * score_sum)
          (scan.1.getD first_idx, rng2)
      let next_idx := pick.1
      let rng2 := pick.2
      if chosen_mask.getD next_idx false then (chosen, rng2)
      else
        let chosen2 := chosen ++ [candidates.getD next_idx default]
        let mask2 := chosen_mask.set next_idx true
        let cand_d2b := (List.range candidates.length).map (fun ci =>
          let d := feature_distance_sq (candidates.getD ci default)
            (candidates.getD next_idx default) color_space
          if d < cand_d2.getD ci 0 then d else cand_d2.getD ci 0)
        kmpp_chosen_go samples color_space candidates weights target_k
          first_idx fuel chosen2 mask2 cand_d2b rng2

/-- Source `init_centroids_kmeans_parallel` (scalable k-means++). -/
def init_centroids_kmeans_parallel (samples : List Rat) (target_k : Nat)
    (color_space : ColorSpace) (seed : Nat) : List Vec4 :=
  let sc := sample_count samples
  if sc = 0 ∨ target_k = 0 then []
  else if target_k = 1 then [sample_at samples (seed % sc)]
  else
    let rng0 := XorShift64.new (seed ^^^ 13249961066933202193)
    let (i0, rng1) := XorShift64.gen_index rng0 sc
    let candidates0 := [sample_at samples i0]
    let oversampling := min (max (target_k * 2) 2) 64
    let nearest0 := (List.range sc).map (fun idx =>
      feature_distance_sq (sample_at samples idx)
        (candidates0.getD 0 default) color_space)
    let cr := kmpp_rounds samples color_space sc oversampling 5 candidates0
      nearest0 rng1
    let candidates2 := dedup_centroids cr.1 color_space
    if candidates2 = [] then init_centroids_random samples target_k seed
    else if candidates2.length ≤ target_k then
      let out :=
        if candidates2.length < target_k then
          candidates2 ++ init_centroids_random samples
            (target_k - candidates2.length) seed
        else candidates2
      dedup_centroids (out.take target_k) color_space
    else
      let weights := (List.range sc).foldl
        (fun w idx =>
          let nearest := (nearest_centroid_idx (sample_at samples idx)
            candidates2 color_space).1
          w.set nearest (w.getD nearest 0 + 1))
        (List.replicate candidates2.length 0)
      let fp := weighted_pick_usize weights cr.2
      let first_idx := fp.1.getD 0
      let rng2 := fp.2
      let chosen0 := [candidates2.getD first_idx default]
      let mask0 := (List.replicate candidates2.length false).set first_idx
        true
      let cand_d2 := (List.range candidates2.length).map (fun ci =>
        feature_distance_sq (candidates2.getD ci default)
          (chosen0.getD 0 default) color_space)
      let ch := kmpp_chosen_go samples color_space candidates2 weights
        target_k first_idx target_k chosen0 mask0 cand_d2 rng2
      let chosen2 :=
        if ch.1.length < target_k then
          ch.1 ++ init_centroids_random samples (target_k - ch.1.length) seed
        else ch.1
      dedup_centroids (chosen2.take target_k) color_space

/-- Random top-up loop of `build_initial_centroids` (`need` is the
shortfall; each pass appends one random sample). -/
def top_up_random (samples : List Rat) (sc : Nat) :
    Nat → List Vec4 → Nat → List Vec4
  | 0, centroids, _ => centroids
  | need + 1, centroids, rng =>
    let (idx, rng2) := XorShift64.gen_index rng sc
    top_up_random samples sc need (centroids ++ [sample_at samples idx]) rng2

/-- Source `build_initial_centroids`: dispatch on the init method, top up a
shortfall with seeded random samples, truncate to `target_k`, dedup. -/
def build_initial_centroids (ops : RealOps) (samples : List Rat)
    (settings : RenderSettings) (target_k : Nat) : List Vec4 :=
  let sc := sample_count samples
  if sc = 0 ∨ target_k = 0 then []
  else
    let target_k := min (min target_k sc) MAX_CLUSTERS
    let centroids :=
      match settings.init_method with
      | .Random => init_centroids_random samples target_k settings.seed
      | .Area => init_centroids_area_based ops samples target_k
          settings.area_similarity_threshold settings.color_space
          settings.seed
      | .SelectedColors => init_centroids_selected ops samples settings
          target_k settings.seed
      | .KMeansParallel => init_centroids_kmeans_parallel samples target_k
          settings.color_space settings.seed
    let centroids :=
      if centroids.length < target_k then
        top_up_random samples sc (target_k - centroids.length) centroids
          (XorShift64.new (settings.seed ^^^ 6129905452896070212))
      else centroids
    dedup_centroids (centroids.take target_k) settings.color_space

/-- Starting cluster count of `run_xmeans` (source lines 902-907): `2` (or
the number of selected colors, at least 1, for the Selected-Colors init
method), clamped by `auto_max_clusters` and the sample count. -/
def xmeans_start_k (settings : RenderSettings) (sc : Nat) : Nat :=
  min (min
    (match settings.init_method with
      | InitMethod.SelectedColors => max settings.selected_colors.length 1
      | _ => 2)
    settings.auto_max_clusters) sc

/-- Starting cluster count of `run_gmeans` (source lines 991-996). -/
def gmeans_start_k (settings : RenderSettings) (sc : Nat) : Nat :=
  min (min
    (match settings.init_method with
      | InitMethod.SelectedColors => max settings.selected_colors.length 1
      | _ => 1)
    settings.auto_max_clusters) sc

/-- One cluster of one split round of `run_xmeans` (source lines 932-955):
keep the parent, or, when the BIC split is accepted and fits under the
ceiling, push the two children and count the split. -/
def xmeans_split_step (ops : RealOps) (samples : List Rat)
    (settings : RenderSettings) (result : ClusterResult) (round : Nat)
    (st : List Vec4 × Nat) (p : Nat × List Nat) : List Vec4 × Nat :=
  let parent := result.centroids.getD p.1 default
  if p.2.length < 8 ∨ settings.auto_max_clusters < st.1.length + 1 then
    (st.1 ++ [parent], st.2)
  else
    match split_cluster_xmeans ops samples p.2 parent
      (result.sse_per_cluster.getD p.1 0) settings
      ((settings.seed + p.1 * 97 + round) % U32) with
    | some cc =>
      if st.1.length + 2 ≤ settings.auto_max_clusters then
        (st.1 ++ [cc.1, cc.2], st.2 + 1)
      else (st.1 ++ [parent], st.2)
    | none => (st.1 ++ [parent], st.2)

/-- One split round of `run_xmeans` (source lines 928-955): walk the
clusters of `result`, keeping each parent or replacing it by two accepted
children; returns the candidate list and the number of accepted splits. -/
def xmeans_next (ops : RealOps) (samples : List Rat)
    (settings : RenderSettings) (result : ClusterResult) (round : Nat) :
    List Vec4 × Nat :=
  let clusters := build_cluster_indices result.labels result.centroids.length
  (clusters.enum).foldl (xmeans_split_step ops samples settings result round)
    ([], 0)

/-- The grow-and-refit loop of `run_xmeans`, fuelled; `none` models a run
that has not returned within `fuel` rounds. -/
def xmeans_loop (ops : RealOps) (samples : List Rat)
    (settings : RenderSettings) :
    Nat → List Vec4 → Nat → Option ClusterResult
  | 0, _, _ => none
  | fuel + 1, centroids, round =>
    let result := run_kmeans ops samples centroids settings.max_iterations
      settings.color_space ((settings.seed + round) % U32)
    let round1 := (round + 17) % U32
    if result.centroids = [] then some result
    else
      let ns := xmeans_next ops samples settings result round1
      if ns.2 = 0 ∨ ns.1.length = centroids.length then
        some (run_kmeans ops samples result.centroids
          settings.max_iterations settings.color_space
          ((settings.seed + 2774162085) % U32))
      else
        let centroids1 := dedup_centroids ns.1 settings.color_space
        if settings.auto_max_clusters ≤ centroids1.length then
          some (run_kmeans ops samples centroids1 settings.max_iterations
            settings.color_space ((settings.seed + 298590941) % U32))
        else xmeans_loop ops samples settings fuel centroids1 round1

/-- Source `run_xmeans`. -/
def run_xmeans (ops : RealOps) (samples : List Rat)
    (settings : RenderSettings) (fuel : Nat) : Option ClusterResult :=
  let sc := sample_count samples
  if sc = 0 then some emptyClusterResult
  else
    let start_k := xmeans_start_k settings sc
    let centroids := build_initial_centroids ops samples settings
      (max start_k 1)
    let centroids := if centroids = [] then [sample_at samples 0]
      else centroids
    xmeans_loop ops samples settings fuel centroids 0

/-- One cluster of one split round of `run_gmeans` (source lines 1021-1043):
keep the parent, or push the two children of an accepted normality-test
split. -/
def gmeans_split_step (ops : RealOps) (samples : List Rat)
    (settings : RenderSettings) (result : ClusterResult) (round : Nat)
    (st : List Vec4 × Nat) (p : Nat × List Nat) : List Vec4 × Nat :=
  let parent := result.centroids.getD p.1 default
  if p.2.length < 10 ∨ settings.auto_max_clusters < st.1.length + 1 then
    (st.1 ++ [parent], st.2)
  else
    match split_cluster_gmeans ops samples p.2 parent settings
      ((settings.seed + p.1 * 131 + round) % U32) with
    | some cc =>
      if st.1.length + 2 ≤ settings.auto_max_clusters then
        (st.1 ++ [cc.1, cc.2], st.2 + 1)
      else (st.1 ++ [parent], st.2)
    | none => (st.1 ++ [parent], st.2)

/-- One split round of `run_gmeans` (source lines 1017-1043). -/
def gmeans_next (ops : RealOps) (samples : List Rat)
    (settings : RenderSettings) (result : ClusterResult) (round : Nat) :
    List Vec4 × Nat :=
  let clusters := build_cluster_indices result.labels result.centroids.length
  (clusters.enum).foldl (gmeans_split_step ops samples settings result round)
    ([], 0)

/-- The grow-and-refit loop of `run_gmeans`, fuelled. -/
def gmeans_loop (ops : RealOps) (samples : List Rat)
    (settings : RenderSettings) :
    Nat → List Vec4 → Nat → Option ClusterResult
  | 0, _, _ => none
  | fuel + 1, centroids, round =>
    let result := run_kmeans ops samples centroids settings.max_iterations
      settings.color_space ((settings.seed + round) % U32)
    let round1 := (round + 31) % U32
    if result.centroids = [] then some result
    else
      let ns := gmeans_next ops samples settings result round1
      if ns.2 = 0 ∨ ns.1.length = centroids.length then
        some (run_kmeans ops samples result.centroids
          settings.max_iterations settings.color_space
          ((settings.seed + 2010985403) % U32))
      else
        let centroids1 := dedup_centroids ns.1 settings.color_space
        if settings.auto_max_clusters ≤ centroids1.length then
          some (run_kmeans ops samples centroids1 settings.max_iterations
            settings.color_space ((settings.seed + 1515856622) % U32))
        else gmeans_loop ops samples settings fuel centroids1 round1

/-- Source `run_gmeans`. -/
def run_gmeans (ops : RealOps) (samples : List Rat)
    (settings : RenderSettings) (fuel : Nat) : Option ClusterResult :=
  let sc := sample_count samples
  if sc = 0 then some emptyClusterResult
  else
    let start_k := gmeans_start_k settings sc
    let centroids := build_initial_centroids ops samples settings
      (max start_k 1)
    let centroids := if centroids = [] then [sample_at samples 0]
      else centroids
    gmeans_loop ops samples settings fuel centroids 0

/-- Source `target_k_for_kmeans`:
`cluster_count.clamp(1, MAX_CLUSTERS).min(pixel_count.max(1))`. -/
def target_k_for_kmeans (settings : RenderSettings) (pixel_count : Nat) :
    Nat :=
  min (min (max settings.cluster_count 1) MAX_CLUSTERS) (max pixel_count 1)

/-- Source `run_cluster_method`: dispatch to plain k-means or an adaptive
driver.  The adaptive drivers carry the fuel of their internal loop. -/
def run_cluster_method (ops : RealOps) (samples : List Rat)
    (settings : RenderSettings) (fuel : Nat) : Option ClusterResult :=
  match settings.cluster_method with
  | .KMeans =>
    let target_k := target_k_for_kmeans settings (sample_count samples)
    let initial := build_initial_centroids ops samples settings target_k
    some (run_kmeans ops samples initial settings.max_iterations
      settings.color_space settings.seed)
  | .XMeans => run_xmeans ops samples settings fuel
  | .GMeans => run_gmeans ops samples settings fuel

/-- Concrete input: two identical samples `(0,0,0,1)`. -/
def samples_two_identical : List Rat := [0, 0, 0, 1, 0, 0, 0, 1]

/-- Concrete initial centroids for the centroid-collapse run: two distinct,
well-separated feature vectors (as produced, e.g., by the Selected-Colors
initializer for two distinct selected colors). -/
def init_two_distinct : List Vec4 := [⟨1, 0, 0, 1⟩, ⟨0, 1, 1, 1⟩]

/-- Concrete input for the x-means cap-overflow run: two tight groups of four
samples at `c0 = 0` and `c0 = 1`, plus two samples far away at
`(1/2, 1, 1)`. -/
def samples_three_groups : List Rat :=
  [0, 0, 0, 1, 0, 0, 0, 1, 0, 0, 0, 1, 0, 0, 0, 1,
    1, 0, 0, 1, 1, 0, 0, 1, 1, 0, 0, 1, 1, 0, 0, 1,
    1/2, 1, 1, 1, 1/2, 1, 1, 1]

/-- Concrete x-means settings with `auto_max_clusters = 2` (the smallest
value `read_settings` can produce), one Lloyd iteration, `Random` init,
linear-RGB space, seed 4. -/
def settings_xmeans_cap2 : RenderSettings :=
  { cluster_method := ClusterMethod.XMeans
    cluster_count := 2
    auto_max_clusters := 2
    max_iterations := 1
    seed := 4
    color_space := ColorSpace.LinearRgb
    init_method := InitMethod.Random
    area_similarity_threshold := 1/2
    selected_colors := []
    gmeans_alpha := 1/20
    rgb_only := false
    use_gpu_if_available := false }

/-- The `ClusterResult` that `run_xmeans` returns on `samples_three_groups`
under `settings_xmeans_cap2` (three clusters despite the ceiling of two). -/
def xmeans_cap2_result : ClusterResult :=
  { centroids := [⟨0, 0, 0, 1⟩, ⟨1, 0, 0, 1⟩, ⟨1/2, 1, 1, 1⟩]
    labels := [0, 0, 0, 0, 1, 1, 1, 1, 2, 2]
    counts := [4, 4, 2]
    sse_per_cluster := [0, 0, 0] }

/-- Concrete settings exercising the non-Selected-Colors branch of the
x-means starting-k computation. -/
def settings_xmeans_random_init : RenderSettings :=
  { settings_xmeans_cap2 with auto_max_clusters := 64, seed := 1 }

/-- Concrete k-means settings used by witnesses: four samples, `k = 2`,
`Random` init, linear RGB. -/
def settings_kmeans_small : RenderSettings :=
  { cluster_method := ClusterMethod.KMeans
    cluster_count := 2
    auto_max_clusters := 8
    max_iterations := 4
    seed := 1
    color_space := ColorSpace.LinearRgb
    init_method := InitMethod.Random
    area_similarity_threshold := 1/2
    selected_colors := []
    gmeans_alpha := 1/20
    rgb_only := false
    use_gpu_if_available := false }

/-- Concrete input: four well-separated samples. -/
def samples_four : List Rat :=
  [0, 0, 0, 1, 1, 0, 0, 1, 0, 1, 0, 1, 1, 1, 1, 1]

theorem QInf.le_refl' (a : QInf) : QInf.le a a = true := by
  cases a <;> simp [QInf.le]

theorem QInf.le_of_lt' {a b : QInf} (h : QInf.lt a b = true) :
    QInf.le a b = true := by
  cases a <;> cases b <;> simp_all [QInf.lt, QInf.le] <;> linarith

theorem QInf.le_of_not_lt' {a b : QInf} (h : QInf.lt a b = false) :
    QInf.le b a = true := by
  cases a <;> cases b <;> simp_all [QInf.lt, QInf.le] <;> linarith

theorem QInf.le_trans' {a b c : QInf} (hab : QInf.le a b = true)
    (hbc : QInf.le b c = true) : QInf.le a c = true := by
  cases a <;> cases b <;> cases c <;> simp_all [QInf.le] <;> linarith

theorem nearest_foldl_fst_lt (sample : Vec4) (color_space : ColorSpace)
    (n : Nat) :
    ∀ (l : List (Nat × Vec4)) (st : Nat × QInf), st.1 < n →
      (∀ p ∈ l, p.1 < n) →
      (l.foldl (nearest_step sample color_space) st).1 < n := by
  intro l
  induction l with
  | nil => intro st h _; simpa using h
  | cons p rest ih =>
    intro st h hall
    simp only [List.foldl_cons]
    apply ih
    · unfold nearest_step
      dsimp only
      split
      · exact hall p (by simp)
      · exact h
    · intro q hq
      exact hall q (by simp [hq])

theorem nearest_foldl_le_start (sample : Vec4) (color_space : ColorSpace) :
    ∀ (l : List (Nat × Vec4)) (st : Nat × QInf),
      QInf.le (l.foldl (nearest_step sample color_space) st).2 st.2 = true := by
  intro l
  induction l with
  | nil => intro st; exact QInf.le_refl' st.2
  | cons p rest ih =>
    intro st
    simp only [List.foldl_cons]
    refine QInf.le_trans' (ih (nearest_step sample color_space st p)) ?_
    unfold nearest_step
    dsimp only
    split
    · next hlt => exact QInf.le_of_lt' hlt
    · exact QInf.le_refl' st.2

theorem nearest_foldl_le_mem (sample : Vec4) (color_space : ColorSpace) :
    ∀ (l : List (Nat × Vec4)) (st : Nat × QInf) (p : Nat × Vec4), p ∈ l →
      QInf.le (l.foldl (nearest_step sample color_space) st).2
        (QInf.fin (feature_distance_sq sample p.2 color_space)) = true := by
  intro l
  induction l with
  | nil => intro st p hp; cases hp
  | cons q rest ih =>
    intro st p hp
    rcases List.mem_cons.1 hp with hpq | hpr
    · subst hpq
      simp only [List.foldl_cons]
      refine QInf.le_trans'
        (nearest_foldl_le_start sample color_space rest
          (nearest_step sample color_space st p)) ?_
      unfold nearest_step
      dsimp only
      split
      · exact QInf.le_refl' _
      · next hlt => exact QInf.le_of_not_lt' (by simpa using hlt)
    · simpa only [List.foldl_cons] using
        ih (nearest_step sample color_space st q) p hpr

theorem nearest_foldl_achieved (sample : Vec4) (color_space : ColorSpace)
    (cs : List Vec4) :
    ∀ (l : List (Nat × Vec4)) (st : Nat × QInf),
      (∀ p ∈ l, cs.getD p.1 default = p.2) →
      (st.2 = QInf.inf ∨ st.2 = QInf.fin
        (feature_distance_sq sample (cs.getD st.1 default) color_space)) →
      ((l.foldl (nearest_step sample color_space) st).2 = QInf.inf ∨
        (l.foldl (nearest_step sample color_space) st).2 = QInf.fin
          (feature_distance_sq sample
            (cs.getD (l.foldl (nearest_step sample color_space) st).1 default)
            color_space)) := by
  intro l
  induction l with
  | nil => intro st _ h; exact h
  | cons p rest ih =>
    intro st hall h
    simp only [List.foldl_cons]
    apply ih
    · intro q hq
      exact hall q (by simp [hq])
    · unfold nearest_step
      dsimp only
      split
      · right
        rw [hall p (by simp)]
      · exact h

theorem enum_mem_spec {α : Type} [Inhabited α] {l : List α} {p : Nat × α}
    (hp : p ∈ l.enum) : p.1 < l.length ∧ l.getD p.1 default = p.2 := by
  have h := List.mem_enum_iff_getElem?.1 hp
  have h1 : p.1 < l.length := by
    by_contra hge
    rw [List.getElem?_eq_none (by omega)] at h
    cases h
  refine ⟨h1, ?_⟩
  rw [List.getD_eq_getElem?_getD, h]
  rfl

theorem enum_mem_of_lt {α : Type} [Inhabited α] {l : List α} {j : Nat}
    (hj : j < l.length) : (j, l.getD j default) ∈ l.enum := by
  apply List.mem_enum_iff_getElem?.2
  simp [List.getD_eq_getElem?_getD, List.getElem?_eq_getElem hj]

theorem nearest_centroid_idx_lt (sample : Vec4) (cs : List Vec4)
    (color_space : ColorSpace) (h : cs ≠ []) :
    (nearest_centroid_idx sample cs color_space).1 < cs.length := by
  unfold nearest_centroid_idx
  apply nearest_foldl_fst_lt
  · exact List.length_pos.2 h
  · intro p hp
    exact (enum_mem_spec hp).1

theorem nearest_centroid_idx_min (sample : Vec4) (cs : List Vec4)
    (color_space : ColorSpace) (j : Nat) (hj : j < cs.length) :
    feature_distance_sq sample
      (cs.getD (nearest_centroid_idx sample cs color_space).1 default)
      color_space ≤
    feature_distance_sq sample (cs.getD j default) color_space := by
  have hle := nearest_foldl_le_mem sample color_space cs.enum (0, QInf.inf)
    (j, cs.getD j default) (enum_mem_of_lt hj)
  have hach := nearest_foldl_achieved sample color_space cs cs.enum
    (0, QInf.inf) (fun p hp => (enum_mem_spec hp).2) (Or.inl rfl)
  rcases hach with hinf | hfin
  · rw [show (cs.enum.foldl (nearest_step sample color_space)
      (0, QInf.inf)) = nearest_centroid_idx sample cs color_space from rfl]
      at hinf
    rw [show (cs.enum.foldl (nearest_step sample color_space)
      (0, QInf.inf)) = nearest_centroid_idx sample cs color_space from rfl]
      at hle
    rw [hinf] at hle
    simp [QInf.le] at hle
  · rw [show (cs.enum.foldl (nearest_step sample color_space)
      (0, QInf.inf)) = nearest_centroid_idx sample cs color_space from rfl]
      at hfin
    rw [show (cs.enum.foldl (nearest_step sample color_space)
      (0, QInf.inf)) = nearest_centroid_idx sample cs color_space from rfl]
      at hle
    rw [hfin] at hle
    simpa [QInf.le] using hle

theorem dedup_foldl_pairwise (color_space : ColorSpace) :
    ∀ (l : List Vec4) (acc : List Vec4),
      List.Pairwise (fun a b =>
        ¬ feature_distance_sq a b color_space < 1 / 100000000) acc →
      List.Pairwise (fun a b =>
        ¬ feature_distance_sq a b color_space < 1 / 100000000)
        (l.foldl (dedup_step color_space) acc) := by
  intro l
  induction l with
  | nil => intro acc h; exact h
  | cons c rest ih =>
    intro acc h
    simp only [List.foldl_cons]
    apply ih
    unfold dedup_step
    split
    · exact h
    · next hany =>
      rw [List.pairwise_append]
      refine ⟨h, List.pairwise_singleton _ _, ?_⟩
      intro a ha b hb
      rw [List.mem_singleton] at hb
      subst hb
      simp only [List.any_eq_true, decide_eq_true_eq] at hany
      push_neg at hany
      exact not_lt.2 (hany a ha)

theorem dedup_foldl_length_le (color_space : ColorSpace) :
    ∀ (l : List Vec4) (acc : List Vec4),
      (l.foldl (dedup_step color_space) acc).length ≤ acc.length + l.length := by
  intro l
  induction l with
  | nil => intro acc; simp
  | cons c rest ih =>
    intro acc
    simp only [List.foldl_cons]
    refine le_trans (ih _) ?_
    unfold dedup_step
    split
    · simp only [List.length_cons]
      omega
    · simp only [List.length_append, List.length_cons, List.length_nil]
      omega

theorem dedup_foldl_length_ge (color_space : ColorSpace) :
    ∀ (l : List Vec4) (acc : List Vec4),
      acc.length ≤ (l.foldl (dedup_step color_space) acc).length := by
  intro l
  induction l with
  | nil => intro acc; simp
  | cons c rest ih =>
    intro acc
    simp only [List.foldl_cons]
    refine le_trans ?_ (ih _)
    unfold dedup_step
    split
    · exact Nat.le_refl _
    · simp

theorem dedup_centroids_length_le (cs : List Vec4)
    (color_space : ColorSpace) :
    (dedup_centroids cs color_space).length ≤ cs.length := by
  simpa using dedup_foldl_length_le color_space cs []

theorem dedup_centroids_ne_nil (cs : List Vec4) (color_space : ColorSpace)
    (h : cs ≠ []) : dedup_centroids cs color_space ≠ [] := by
  cases cs with
  | nil => exact absurd rfl h
  | cons c rest =>
    unfold dedup_centroids
    simp only [List.foldl_cons]
    have hstep : dedup_step color_space [] c = [c] := by
      unfold dedup_step
      simp
    rw [hstep]
    have := dedup_foldl_length_ge color_space rest [c]
    intro hnil
    rw [hnil] at this
    simp at this

/-- C8: for hue values `a, b ∈ [0, 1]` the wrap-corrected difference
`circular_delta a b` has magnitude at most `1/2`, and at the wrap boundary
`circular_delta 0.999 0.001` equals `-0.002` (magnitude `0.002`, not
`0.998`). -/
theorem circular_delta_wrap_correct (a b : Rat)
    (ha0 : 0 ≤ a) (ha1 : a ≤ 1) (hb0 : 0 ≤ b) (hb1 : b ≤ 1) :
    |circular_delta a b| ≤ 1/2 ∧
      circular_delta (999/1000) (1/1000) = -(1/500) := by
  constructor
  · unfold circular_delta
    dsimp only
    split
    · next h =>
      rw [abs_le]
      constructor <;> linarith
    · next h =>
      split
      · next h2 =>
        rw [abs_le]
        constructor <;> linarith
      · next h2 =>
        rw [abs_le]
        constructor <;> linarith
  · with_unfolding_all decide

/-- Witness for `circular_delta_wrap_correct` at `a = 0.999`, `b = 0.001`. -/
theorem circular_delta_wrap_correct_witness :
    |circular_delta (999/1000) (1/1000)| ≤ 1/2 ∧
      circular_delta (999/1000) (1/1000) = -(1/500) :=
  circular_delta_wrap_correct (999/1000) (1/1000) (by norm_num) (by norm_num)
    (by norm_num) (by norm_num)

theorem centroid_update_step_fst (ops : RealOps) (samples : List Rat)
    (color_space : ColorSpace) (sc : Nat) (centroids : List Vec4)
    (accums : List ClusterAccum) (st : List Vec4 × List Rat × Nat) (c : Nat) :
    ∃ v, (centroid_update_step ops samples color_space sc centroids accums
      st c).1 = st.1 ++ [v] :=
  ⟨_, rfl⟩

theorem centroid_update_foldl_length (ops : RealOps) (samples : List Rat)
    (color_space : ColorSpace) (sc : Nat) (centroids : List Vec4)
    (accums : List ClusterAccum) :
    ∀ (l : List Nat) (st : List Vec4 × List Rat × Nat),
      ((l.foldl (centroid_update_step ops samples color_space sc centroids
        accums) st).1).length = st.1.length + l.length := by
  intro l
  induction l with
  | nil => intro st; simp
  | cons c rest ih =>
    intro st
    simp only [List.foldl_cons]
    rw [ih]
    obtain ⟨v, hv⟩ := centroid_update_step_fst ops samples color_space sc
      centroids accums st c
    rw [hv]
    simp only [List.length_append, List.length_cons, List.length_nil]
    omega

theorem kmeans_iteration_centroids_length (ops : RealOps)
    (samples : List Rat) (color_space : ColorSpace) (k : Nat)
    (centroids : List Vec4) (labels : List Nat) (upper lower : List QInf)
    (rng : Nat) :
    ((kmeans_iteration ops samples color_space k centroids labels upper lower
      rng).1).length = k := by
  unfold kmeans_iteration
  dsimp only
  rw [centroid_update_foldl_length]
  simp

theorem kmeans_loop_centroids_length (ops : RealOps) (samples : List Rat)
    (color_space : ColorSpace) (k : Nat) :
    ∀ (iters : Nat) (centroids : List Vec4) (labels : List Nat)
      (upper lower : List QInf) (rng : Nat), centroids.length = k →
      ((kmeans_loop ops samples color_space k iters centroids labels upper
        lower rng).1).length = k := by
  intro iters
  induction iters with
  | zero => intro centroids _ _ _ _ h; exact h
  | succ n ih =>
    intro centroids labels upper lower rng h
    unfold kmeans_loop
    dsimp only
    split
    · exact kmeans_iteration_centroids_length ops samples color_space k
        centroids labels upper lower rng
    · exact ih _ _ _ _ _ (kmeans_iteration_centroids_length ops samples
        color_space k centroids labels upper lower rng)

theorem run_kmeans_core_centroids_length (ops : RealOps)
    (samples : List Rat) (initial_centroids : List Vec4)
    (max_iterations : Nat) (color_space : ColorSpace) (seed : Nat) :
    (run_kmeans_core ops samples initial_centroids max_iterations color_space
      seed).centroids.length =
    (kmeans_initial_set samples initial_centroids color_space).length := by
  unfold run_kmeans_core
  dsimp only
  exact kmeans_loop_centroids_length ops samples color_space _ _ _ _ _ _ _
    rfl

theorem kmeans_initial_set_ne_nil (samples : List Rat)
    (initial_centroids : List Vec4) (color_space : ColorSpace) :
    kmeans_initial_set samples initial_centroids color_space ≠ [] := by
  unfold kmeans_initial_set
  dsimp only
  split
  · simp
  · assumption

theorem run_kmeans_core_centroids_pos (ops : RealOps) (samples : List Rat)
    (initial_centroids : List Vec4) (max_iterations : Nat)
    (color_space : ColorSpace) (seed : Nat) :
    1 ≤ (run_kmeans_core ops samples initial_centroids max_iterations
      color_space seed).centroids.length := by
  rw [run_kmeans_core_centroids_length]
  exact List.length_pos.2 (kmeans_initial_set_ne_nil samples
    initial_centroids color_space)

theorem kmeans_initial_set_length_le (samples : List Rat)
    (initial_centroids : List Vec4) (color_space : ColorSpace) :
    (kmeans_initial_set samples initial_centroids color_space).length ≤
      max initial_centroids.length 1 := by
  unfold kmeans_initial_set
  dsimp only
  split
  · simp
  · exact le_trans (dedup_centroids_length_le initial_centroids color_space)
      (le_max_left _ _)

theorem run_kmeans_core_labels (ops : RealOps) (samples : List Rat)
    (initial_centroids : List Vec4) (max_iterations : Nat)
    (color_space : ColorSpace) (seed : Nat) :
    (run_kmeans_core ops samples initial_centroids max_iterations color_space
      seed).labels =
    (List.range (sample_count samples)).map (fun idx =>
      (nearest_centroid_idx (sample_at samples idx)
        (run_kmeans_core ops samples initial_centroids max_iterations
          color_space seed).centroids color_space).1) :=
  rfl

theorem run_kmeans_core_labels_lt (ops : RealOps) (samples : List Rat)
    (initial_centroids : List Vec4) (max_iterations : Nat)
    (color_space : ColorSpace) (seed : Nat) :
    ∀ l ∈ (run_kmeans_core ops samples initial_centroids max_iterations
      color_space seed).labels,
      l < (run_kmeans_core ops samples initial_centroids max_iterations
        color_space seed).centroids.length := by
  intro l hl
  rw [run_kmeans_core_labels] at hl
  obtain ⟨idx, _, hidx⟩ := List.mem_map.1 hl
  subst hidx
  apply nearest_centroid_idx_lt
  intro hnil
  have := run_kmeans_core_centroids_pos ops samples initial_centroids
    max_iterations color_space seed
  rw [hnil] at this
  simp at this

theorem run_kmeans_labels_lt (ops : RealOps) (samples : List Rat)
    (initial_centroids : List Vec4) (max_iterations : Nat)
    (color_space : ColorSpace) (seed : Nat) :
    ∀ l ∈ (run_kmeans ops samples initial_centroids max_iterations
      color_space seed).labels,
      l < (run_kmeans ops samples initial_centroids max_iterations
        color_space seed).centroids.length := by
  intro l hl
  unfold run_kmeans at *
  split at hl
  · simp [emptyClusterResult] at hl
  · rw [if_neg (by assumption)]
    exact run_kmeans_core_labels_lt ops samples initial_centroids
      max_iterations color_space seed l hl

theorem getD_set_eq {α : Type} (l : List α) (i : Nat) (a d : α)
    (h : i < l.length) : (l.set i a).getD i d = a := by
  rw [List.getD_eq_getElem?_getD, List.getElem?_set]
  simp [h]

theorem getD_set_ne {α : Type} (l : List α) (i j : Nat) (a d : α)
    (h : i ≠ j) : (l.set i a).getD j d = l.getD j d := by
  rw [List.getD_eq_getElem?_getD, List.getElem?_set, if_neg h,
    ← List.getD_eq_getElem?_getD]

theorem sum_set_add {M : Type} [AddCommMonoid M] :
    ∀ (l : List M) (i : Nat) (d : M), i < l.length →
      (l.set i (l.getD i 0 + d)).sum = l.sum + d := by
  intro l
  induction l with
  | nil => intro i d h; simp at h
  | cons a t ih =>
    intro i d h
    cases i with
    | zero =>
      show (((a :: t).getD 0 0 + d) :: t).sum = (a :: t).sum + d
      have hgd : (a :: t).getD 0 0 = a := rfl
      rw [hgd]
      simp only [List.sum_cons]
      rw [add_right_comm]
    | succ n =>
      simp only [List.set, List.sum_cons]
      have hn : n < t.length := by
        simp only [List.length_cons] at h
        omega
      have hgd : (a :: t).getD (n + 1) 0 = t.getD n 0 := by
        simp [List.getD]
      rw [hgd, ih n d hn, add_assoc]

theorem count_sse_foldl_lengths (samples : List Rat) (cs : List Vec4)
    (color_space : ColorSpace) :
    ∀ (l : List (Nat × Nat)) (st : List Nat × List Rat),
      ((l.foldl (count_sse_step samples cs color_space) st).1).length =
        st.1.length ∧
      ((l.foldl (count_sse_step samples cs color_space) st).2).length =
        st.2.length := by
  intro l
  induction l with
  | nil => intro st; exact ⟨rfl, rfl⟩
  | cons p rest ih =>
    intro st
    simp only [List.foldl_cons]
    refine ⟨?_, ?_⟩
    · rw [(ih _).1]
      exact List.length_set st.1 p.2 _
    · rw [(ih _).2]
      exact List.length_set st.2 p.2 _

theorem count_sse_foldl_counts_getD (samples : List Rat) (cs : List Vec4)
    (color_space : ColorSpace) :
    ∀ (l : List (Nat × Nat)) (st : List Nat × List Rat) (c : Nat),
      (∀ p ∈ l, p.2 < st.1.length) →
      ((l.foldl (count_sse_step samples cs color_space) st).1).getD c 0 =
        st.1.getD c 0 + (l.map Prod.snd).count c := by
  intro l
  induction l with
  | nil => intro st c _; simp
  | cons p rest ih =>
    intro st c hall
    simp only [List.foldl_cons]
    have hlen : p.2 < st.1.length := hall p (by simp)
    have hnext : ∀ q ∈ rest, q.2 <
        ((count_sse_step samples cs color_space st p).1).length := by
      intro q hq
      unfold count_sse_step
      dsimp only
      rw [List.length_set]
      exact hall q (by simp [hq])
    rw [ih _ c hnext]
    unfold count_sse_step
    dsimp only
    simp only [List.map_cons, List.count_cons]
    by_cases hc : p.2 = c
    · subst hc
      rw [getD_set_eq _ _ _ _ hlen]
      simp
      omega
    · rw [getD_set_ne _ _ _ _ _ hc]
      have : (p.2 == c) = false := by
        simp [hc]
      rw [this]
      simp

theorem count_sse_foldl_counts_sum (samples : List Rat) (cs : List Vec4)
    (color_space : ColorSpace) :
    ∀ (l : List (Nat × Nat)) (st : List Nat × List Rat),
      (∀ p ∈ l, p.2 < st.1.length) →
      ((l.foldl (count_sse_step samples cs color_space) st).1).sum =
        st.1.sum + l.length := by
  intro l
  induction l with
  | nil => intro st _; simp
  | cons p rest ih =>
    intro st hall
    simp only [List.foldl_cons]
    have hlen : p.2 < st.1.length := hall p (by simp)
    have hnext : ∀ q ∈ rest, q.2 <
        ((count_sse_step samples cs color_space st p).1).length := by
      intro q hq
      unfold count_sse_step
      dsimp only
      rw [List.length_set]
      exact hall q (by simp [hq])
    rw [ih _ hnext]
    unfold count_sse_step
    dsimp only
    rw [sum_set_add st.1 p.2 1 hlen]
    simp only [List.length_cons]
    omega

theorem count_sse_foldl_sse_sum (samples : List Rat) (cs : List Vec4)
    (color_space : ColorSpace) :
    ∀ (l : List (Nat × Nat)) (st : List Nat × List Rat),
      (∀ p ∈ l, p.2 < st.2.length) →
      ((l.foldl (count_sse_step samples cs color_space) st).2).sum =
        st.2.sum + (l.map (fun p => feature_distance_sq (sample_at samples p.1)
          (cs.getD p.2 default) color_space)).sum := by
  intro l
  induction l with
  | nil => intro st _; simp
  | cons p rest ih =>
    intro st hall
    simp only [List.foldl_cons]
    have hlen : p.2 < st.2.length := hall p (by simp)
    have hnext : ∀ q ∈ rest, q.2 <
        ((count_sse_step samples cs color_space st p).2).length := by
      intro q hq
      unfold count_sse_step
      dsimp only
      rw [List.length_set]
      exact hall q (by simp [hq])
    rw [ih _ hnext]
    unfold count_sse_step
    dsimp only
    rw [sum_set_add st.2 p.2 _ hlen]
    simp only [List.map_cons, List.sum_cons]
    ring

theorem run_kmeans_core_counts_def (ops : RealOps) (samples : List Rat)
    (initial_centroids : List Vec4) (max_iterations : Nat)
    (color_space : ColorSpace) (seed : Nat) :
    ((run_kmeans_core ops samples initial_centroids max_iterations color_space
      seed).counts,
     (run_kmeans_core ops samples initial_centroids max_iterations color_space
      seed).sse_per_cluster) =
    ((run_kmeans_core ops samples initial_centroids max_iterations color_space
        seed).labels.enum).foldl
      (count_sse_step samples (run_kmeans_core ops samples initial_centroids
        max_iterations color_space seed).centroids color_space)
      (List.replicate
        (kmeans_initial_set samples initial_centroids color_space).length 0,
       List.replicate
        (kmeans_initial_set samples initial_centroids color_space).length 0) :=
  rfl

theorem run_kmeans_core_labels_length (ops : RealOps) (samples : List Rat)
    (initial_centroids : List Vec4) (max_iterations : Nat)
    (color_space : ColorSpace) (seed : Nat) :
    (run_kmeans_core ops samples initial_centroids max_iterations color_space
      seed).labels.length = sample_count samples := by
  rw [run_kmeans_core_labels]
  simp

theorem run_kmeans_core_enum_label_lt (ops : RealOps) (samples : List Rat)
    (initial_centroids : List Vec4) (max_iterations : Nat)
    (color_space : ColorSpace) (seed : Nat) :
    ∀ p ∈ (run_kmeans_core ops samples initial_centroids max_iterations
        color_space seed).labels.enum,
      p.2 < (kmeans_initial_set samples initial_centroids
        color_space).length := by
  intro p hp
  have hmem : p.2 ∈ (run_kmeans_core ops samples initial_centroids
      max_iterations color_space seed).labels :=
    List.getElem?_mem (List.mem_enum_iff_getElem?.1 hp)
  have := run_kmeans_core_labels_lt ops samples initial_centroids
    max_iterations color_space seed p.2 hmem
  rwa [run_kmeans_core_centroids_length] at this

theorem run_kmeans_core_counts_sum (ops : RealOps) (samples : List Rat)
    (initial_centroids : List Vec4) (max_iterations : Nat)
    (color_space : ColorSpace) (seed : Nat) :
    (run_kmeans_core ops samples initial_centroids max_iterations color_space
      seed).counts.sum = sample_count samples := by
  have hdef := congrArg Prod.fst (run_kmeans_core_counts_def ops samples
    initial_centroids max_iterations color_space seed)
  dsimp only at hdef
  rw [hdef]
  rw [count_sse_foldl_counts_sum]
  · simp [List.enum_length,
      run_kmeans_core_labels_length ops samples initial_centroids
        max_iterations color_space seed]
  · intro p hp
    simp only [List.length_replicate]
    exact run_kmeans_core_enum_label_lt ops samples initial_centroids
      max_iterations color_space seed p hp

theorem run_kmeans_core_counts_count (ops : RealOps) (samples : List Rat)
    (initial_centroids : List Vec4) (max_iterations : Nat)
    (color_space : ColorSpace) (seed : Nat) (c : Nat) :
    (run_kmeans_core ops samples initial_centroids max_iterations color_space
      seed).counts.getD c 0 =
    (run_kmeans_core ops samples initial_centroids max_iterations color_space
      seed).labels.count c := by
  have hdef := congrArg Prod.fst (run_kmeans_core_counts_def ops samples
    initial_centroids max_iterations color_space seed)
  dsimp only at hdef
  rw [hdef]
  rw [count_sse_foldl_counts_getD]
  · rw [List.enum_map_snd]
    rw [List.getD_eq_getElem?_getD, List.getElem?_replicate]
    split <;> simp
  · intro p hp
    simp only [List.length_replicate]
    exact run_kmeans_core_enum_label_lt ops samples initial_centroids
      max_iterations color_space seed p hp

theorem run_kmeans_core_counts_length (ops : RealOps) (samples : List Rat)
    (initial_centroids : List Vec4) (max_iterations : Nat)
    (color_space : ColorSpace) (seed : Nat) :
    (run_kmeans_core ops samples initial_centroids max_iterations color_space
      seed).counts.length =
    (run_kmeans_core ops samples initial_centroids max_iterations color_space
      seed).centroids.length := by
  have hdef := congrArg Prod.fst (run_kmeans_core_counts_def ops samples
    initial_centroids max_iterations color_space seed)
  dsimp only at hdef
  rw [hdef, (count_sse_foldl_lengths samples _ color_space _ _).1]
  simp [run_kmeans_core_centroids_length]

theorem run_kmeans_core_sse_length (ops : RealOps) (samples : List Rat)
    (initial_centroids : List Vec4) (max_iterations : Nat)
    (color_space : ColorSpace) (seed : Nat) :
    (run_kmeans_core ops samples initial_centroids max_iterations color_space
      seed).sse_per_cluster.length =
    (run_kmeans_core ops samples initial_centroids max_iterations color_space
      seed).centroids.length := by
  have hdef := congrArg Prod.snd (run_kmeans_core_counts_def ops samples
    initial_centroids max_iterations color_space seed)
  dsimp only at hdef
  rw [hdef, (count_sse_foldl_lengths samples _ color_space _ _).2]
  simp [run_kmeans_core_centroids_length]

theorem run_kmeans_core_sse_sum (ops : RealOps) (samples : List Rat)
    (initial_centroids : List Vec4) (max_iterations : Nat)
    (color_space : ColorSpace) (seed : Nat) :
    (run_kmeans_core ops samples initial_centroids max_iterations color_space
      seed).sse_per_cluster.sum =
    (((run_kmeans_core ops samples initial_centroids max_iterations
        color_space seed).labels.enum).map
      (fun p => feature_distance_sq (sample_at samples p.1)
        ((run_kmeans_core ops samples initial_centroids max_iterations
          color_space seed).centroids.getD p.2 default) color_space)).sum := by
  have hdef := congrArg Prod.snd (run_kmeans_core_counts_def ops samples
    initial_centroids max_iterations color_space seed)
  dsimp only at hdef
  rw [hdef]
  rw [count_sse_foldl_sse_sum]
  · simp
  · intro p hp
    simp only [List.length_replicate]
    exact run_kmeans_core_enum_label_lt ops samples initial_centroids
      max_iterations color_space seed p hp

theorem feature_distance_sq_nonneg (a b : Vec4) (color_space : ColorSpace) :
    0 ≤ feature_distance_sq a b color_space := by
  unfold feature_distance_sq
  dsimp only
  have h1 := mul_self_nonneg (feature_delta a.c0 b.c0 color_space)
  have h2 := mul_self_nonneg (a.c1 - b.c1)
  have h3 := mul_self_nonneg (a.c2 - b.c2)
  linarith

theorem getD_map_range {α : Type} (f : Nat → α) (n i : Nat) (d : α)
    (h : i < n) : ((List.range n).map f).getD i d = f i := by
  rw [List.getD_eq_getElem?_getD, List.getElem?_map, List.getElem?_range h]
  rfl

theorem run_kmeans_core_enum_label_eq (ops : RealOps) (samples : List Rat)
    (initial_centroids : List Vec4) (max_iterations : Nat)
    (color_space : ColorSpace) (seed : Nat) :
    ∀ p ∈ (run_kmeans_core ops samples initial_centroids max_iterations
        color_space seed).labels.enum,
      p.1 < sample_count samples ∧
      p.2 = (nearest_centroid_idx (sample_at samples p.1)
        (run_kmeans_core ops samples initial_centroids max_iterations
          color_space seed).centroids color_space).1 := by
  intro p hp
  have hspec := enum_mem_spec hp
  have hlen := run_kmeans_core_labels_length ops samples initial_centroids
    max_iterations color_space seed
  have hp1 : p.1 < sample_count samples := by rw [← hlen]; exact hspec.1
  refine ⟨hp1, ?_⟩
  have hlab := run_kmeans_core_labels ops samples initial_centroids
    max_iterations color_space seed
  have := hspec.2
  rw [hlab] at this
  rw [getD_map_range _ _ _ _ hp1] at this
  exact this.symm

/-- C7: the exact final re-assignment of `run_kmeans` is SSE-minimal: the
total SSE of the returned result (sum of `sse_per_cluster`, i.e. the sum over
all samples of the squared distance to their assigned nearest centroid) is at
most the total SSE of any other assignment `g` of the same samples to the
same centroids, in particular the pre-final-pass assignment. -/
theorem run_kmeans_final_pass_sse_minimal (ops : RealOps)
    (samples : List Rat) (initial_centroids : List Vec4)
    (max_iterations : Nat) (color_space : ColorSpace) (seed : Nat)
    (g : Nat → Nat)
    (hg : ∀ i, i < sample_count samples →
      g i < (run_kmeans ops samples initial_centroids max_iterations
        color_space seed).centroids.length) :
    (run_kmeans ops samples initial_centroids max_iterations color_space
      seed).sse_per_cluster.sum ≤
    (((run_kmeans ops samples initial_centroids max_iterations color_space
        seed).labels.enum).map
      (fun p => feature_distance_sq (sample_at samples p.1)
        ((run_kmeans ops samples initial_centroids max_iterations color_space
          seed).centroids.getD (g p.1) default) color_space)).sum := by
  by_cases hc : (sample_count samples = 0 ∨ initial_centroids = [])
  · rw [run_kmeans, if_pos hc]
    simp [emptyClusterResult]
  · rw [run_kmeans, if_neg hc] at hg ⊢
    rw [run_kmeans_core_sse_sum]
    apply List.sum_le_sum
    intro p hp
    have hchar := run_kmeans_core_enum_label_eq ops samples initial_centroids
      max_iterations color_space seed p hp
    rw [hchar.2]
    exact nearest_centroid_idx_min (sample_at samples p.1) _ color_space
      (g p.1) (hg p.1 hchar.1)

/-- Witness for `run_kmeans_final_pass_sse_minimal` on four samples, two
initial centroids and the constant assignment to cluster 0. -/
theorem run_kmeans_final_pass_sse_minimal_witness :
    (run_kmeans rat_ops samples_four init_two_distinct 1
      ColorSpace.LinearRgb 1).sse_per_cluster.sum ≤
    (((run_kmeans rat_ops samples_four init_two_distinct 1
        ColorSpace.LinearRgb 1).labels.enum).map
      (fun p => feature_distance_sq (sample_at samples_four p.1)
        ((run_kmeans rat_ops samples_four init_two_distinct 1
          ColorSpace.LinearRgb 1).centroids.getD ((fun _ => 0) p.1) default)
        ColorSpace.LinearRgb)).sum :=
  run_kmeans_final_pass_sse_minimal rat_ops samples_four init_two_distinct 1
    ColorSpace.LinearRgb 1 (fun _ => 0)
    (fun i _ => by
      show 0 < (run_kmeans rat_ops samples_four init_two_distinct 1
        ColorSpace.LinearRgb 1).centroids.length
      with_unfolding_all decide)

/-- C10: `run_kmeans` returns consistent array shapes: `counts` and
`sse_per_cluster` always have exactly one entry per centroid; degenerate
inputs give the all-empty result; otherwise `labels` has one entry per input
sample and there is at least one centroid. -/
theorem run_kmeans_result_shapes (ops : RealOps) (samples : List Rat)
    (initial_centroids : List Vec4) (max_iterations : Nat)
    (color_space : ColorSpace) (seed : Nat) :
    (run_kmeans ops samples initial_centroids max_iterations color_space
      seed).counts.length =
      (run_kmeans ops samples initial_centroids max_iterations color_space
        seed).centroids.length ∧
    (run_kmeans ops samples initial_centroids max_iterations color_space
      seed).sse_per_cluster.length =
      (run_kmeans ops samples initial_centroids max_iterations color_space
        seed).centroids.length ∧
    (sample_count samples = 0 ∨ initial_centroids = [] →
      run_kmeans ops samples initial_centroids max_iterations color_space
        seed = emptyClusterResult) ∧
    (sample_count samples ≠ 0 → initial_centroids ≠ [] →
      (run_kmeans ops samples initial_centroids max_iterations color_space
        seed).labels.length = sample_count samples ∧
      1 ≤ (run_kmeans ops samples initial_centroids max_iterations
        color_space seed).centroids.length) := by
  by_cases hc : (sample_count samples = 0 ∨ initial_centroids = [])
  · rw [run_kmeans, if_pos hc]
    refine ⟨rfl, rfl, fun _ => rfl, ?_⟩
    intro h1 h2
    rcases hc with h | h
    · exact absurd h h1
    · exact absurd h h2
  · rw [run_kmeans, if_neg hc]
    exact ⟨run_kmeans_core_counts_length ops samples initial_centroids
        max_iterations color_space seed,
      run_kmeans_core_sse_length ops samples initial_centroids max_iterations
        color_space seed,
      fun h => absurd h hc,
      fun _ _ => ⟨run_kmeans_core_labels_length ops samples initial_centroids
          max_iterations color_space seed,
        run_kmeans_core_centroids_pos ops samples initial_centroids
          max_iterations color_space seed⟩⟩

/-- Witness for `run_kmeans_result_shapes` on four samples and two initial
centroids, using the non-degenerate conjunct. -/
theorem run_kmeans_result_shapes_witness :
    (run_kmeans rat_ops samples_four init_two_distinct 2
      ColorSpace.LinearRgb 1).labels.length = sample_count samples_four ∧
    1 ≤ (run_kmeans rat_ops samples_four init_two_distinct 2
      ColorSpace.LinearRgb 1).centroids.length :=
  (run_kmeans_result_shapes rat_ops samples_four init_two_distinct 2
    ColorSpace.LinearRgb 1).2.2.2 (by with_unfolding_all decide)
    (by with_unfolding_all decide)

theorem cluster_indices_foldl_length (cc : Nat) :
    ∀ (l : List (Nat × Nat)) (cls : List (List Nat)),
      (l.foldl (cluster_indices_step cc) cls).length = cls.length := by
  intro l
  induction l with
  | nil => intro cls; rfl
  | cons p rest ih =>
    intro cls
    simp only [List.foldl_cons]
    rw [ih]
    unfold cluster_indices_step
    split
    · exact List.length_set cls p.2 _
    · rfl

theorem build_cluster_indices_length (labels : List Nat) (cc : Nat)
    (h : cc ≠ 0) : (build_cluster_indices labels cc).length = cc := by
  unfold build_cluster_indices
  rw [if_neg h, cluster_indices_foldl_length]
  exact List.length_replicate cc []

theorem xmeans_split_step_shape (ops : RealOps) (samples : List Rat)
    (settings : RenderSettings) (result : ClusterResult) (round : Nat)
    (st : List Vec4 × Nat) (p : Nat × List Nat) :
    ∃ add s, xmeans_split_step ops samples settings result round st p =
      (st.1 ++ add, st.2 + s) ∧
      (add.length = 1 ∧ s = 0 ∨
        add.length = 2 ∧ s = 1 ∧
          st.1.length + 2 ≤ settings.auto_max_clusters) := by
  unfold xmeans_split_step
  dsimp only
  split
  · exact ⟨[_], 0, rfl, Or.inl ⟨rfl, rfl⟩⟩
  · split
    · split
      · next hle => exact ⟨[_, _], 1, rfl, Or.inr ⟨rfl, rfl, hle⟩⟩
      · exact ⟨[_], 0, rfl, Or.inl ⟨rfl, rfl⟩⟩
    · exact ⟨[_], 0, rfl, Or.inl ⟨rfl, rfl⟩⟩

theorem gmeans_split_step_shape (ops : RealOps) (samples : List Rat)
    (settings : RenderSettings) (result : ClusterResult) (round : Nat)
    (st : List Vec4 × Nat) (p : Nat × List Nat) :
    ∃ add s, gmeans_split_step ops samples settings result round st p =
      (st.1 ++ add, st.2 + s) ∧ 1 ≤ add.length := by
  unfold gmeans_split_step
  dsimp only
  split
  · exact ⟨[_], 0, rfl, by simp⟩
  · split
    · split
      · exact ⟨[_, _], 1, rfl, by simp⟩
      · exact ⟨[_], 0, rfl, by simp⟩
    · exact ⟨[_], 0, rfl, by simp⟩

theorem xmeans_fold_spec (ops : RealOps) (samples : List Rat)
    (settings : RenderSettings) (result : ClusterResult) (round : Nat) :
    ∀ (l : List (Nat × List Nat)) (st : List Vec4 × Nat),
      2 * st.2 ≤ st.1.length →
      (st.2 = 0 ∨ 2 * st.2 ≤ settings.auto_max_clusters) →
      (l.foldl (xmeans_split_step ops samples settings result round)
        st).1.length + st.2 =
        st.1.length + l.length +
          (l.foldl (xmeans_split_step ops samples settings result round)
            st).2 ∧
      2 * (l.foldl (xmeans_split_step ops samples settings result round)
        st).2 ≤
        (l.foldl (xmeans_split_step ops samples settings result round)
          st).1.length ∧
      ((l.foldl (xmeans_split_step ops samples settings result round)
        st).2 = 0 ∨
        2 * (l.foldl (xmeans_split_step ops samples settings result round)
          st).2 ≤ settings.auto_max_clusters) := by
  intro l
  induction l with
  | nil =>
    intro st h1 h2
    simp only [List.foldl_nil, List.length_nil]
    exact ⟨by omega, h1, h2⟩
  | cons p rest ih =>
    intro st h1 h2
    obtain ⟨add, s, heq, hcase⟩ := xmeans_split_step_shape ops samples
      settings result round st p
    simp only [List.foldl_cons, heq]
    have hlen : (st.1 ++ add).length = st.1.length + add.length :=
      List.length_append st.1 add
    rcases hcase with ⟨ha, hs⟩ | ⟨ha, hs, hguard⟩
    · subst hs
      have := ih (st.1 ++ add, st.2 + 0) (by dsimp only; omega)
        (by dsimp only; omega)
      dsimp only at this
      refine ⟨?_, this.2.1, this.2.2⟩
      have heq2 := this.1
      simp only [List.length_cons]
      omega
    · subst hs
      have := ih (st.1 ++ add, st.2 + 1) (by dsimp only; omega)
        (by dsimp only; right; omega)
      dsimp only at this
      refine ⟨?_, this.2.1, this.2.2⟩
      have heq2 := this.1
      simp only [List.length_cons]
      omega

theorem split_fold_grow
    (F : (List Vec4 × Nat) → (Nat × List Nat) → List Vec4 × Nat)
    (hF : ∀ st p, ∃ add s, F st p = (st.1 ++ add, st.2 + s) ∧
      1 ≤ add.length) :
    ∀ (l : List (Nat × List Nat)) (st : List Vec4 × Nat),
      st.1.length + l.length ≤ (l.foldl F st).1.length := by
  intro l
  induction l with
  | nil => intro st; simp
  | cons p rest ih =>
    intro st
    obtain ⟨add, s, heq, hadd⟩ := hF st p
    simp only [List.foldl_cons, heq]
    have := ih (st.1 ++ add, st.2 + s)
    dsimp only at this
    rw [List.length_append] at this
    simp only [List.length_cons]
    omega

theorem xmeans_next_spec (ops : RealOps) (samples : List Rat)
    (settings : RenderSettings) (result : ClusterResult) (round : Nat)
    (h : result.centroids ≠ []) :
    (xmeans_next ops samples settings result round).1.length =
      result.centroids.length +
        (xmeans_next ops samples settings result round).2 ∧
    2 * (xmeans_next ops samples settings result round).2 ≤
      (xmeans_next ops samples settings result round).1.length ∧
    ((xmeans_next ops samples settings result round).2 = 0 ∨
      2 * (xmeans_next ops samples settings result round).2 ≤
        settings.auto_max_clusters) := by
  have hcc : result.centroids.length ≠ 0 := by
    simpa [List.length_eq_zero] using h
  have hspec := xmeans_fold_spec ops samples settings result round
    (build_cluster_indices result.labels result.centroids.length).enum
    ([], 0) (by simp) (Or.inl rfl)
  have hlen : (build_cluster_indices result.labels
      result.centroids.length).enum.length = result.centroids.length := by
    rw [List.enum_length, build_cluster_indices_length _ _ hcc]
  unfold xmeans_next
  dsimp only
  rw [hlen] at hspec
  simp only [List.length_nil] at hspec
  exact ⟨by omega, hspec.2.1, hspec.2.2⟩

theorem run_kmeans_centroids_le (ops : RealOps) (samples : List Rat)
    (initial_centroids : List Vec4) (max_iterations : Nat)
    (color_space : ColorSpace) (seed : Nat) :
    (run_kmeans ops samples initial_centroids max_iterations color_space
      seed).centroids.length ≤ max initial_centroids.length 1 := by
  unfold run_kmeans
  split
  · simp [emptyClusterResult]
  · rw [run_kmeans_core_centroids_length]
    exact kmeans_initial_set_length_le samples initial_centroids color_space

theorem run_kmeans_centroids_ne_nil (ops : RealOps) (samples : List Rat)
    (initial_centroids : List Vec4) (max_iterations : Nat)
    (color_space : ColorSpace) (seed : Nat)
    (h1 : sample_count samples ≠ 0) (h2 : initial_centroids ≠ []) :
    (run_kmeans ops samples initial_centroids max_iterations color_space
      seed).centroids ≠ [] := by
  unfold run_kmeans
  rw [if_neg (by tauto)]
  intro hnil
  have := run_kmeans_core_centroids_pos ops samples initial_centroids
    max_iterations color_space seed
  rw [hnil] at this
  simp at this

theorem xmeans_loop_bound (ops : RealOps) (samples : List Rat)
    (settings : RenderSettings)
    (hcap : 1 ≤ settings.auto_max_clusters) :
    ∀ (fuel : Nat) (cents : List Vec4) (round : Nat) (res : ClusterResult),
      cents.length ≤ settings.auto_max_clusters →
      xmeans_loop ops samples settings fuel cents round = some res →
      2 * res.centroids.length ≤ 3 * settings.auto_max_clusters := by
  intro fuel
  induction fuel with
  | zero =>
    intro cents round res _ h
    simp [xmeans_loop] at h
  | succ n ih =>
    intro cents round res hle h
    unfold xmeans_loop at h
    dsimp only at h
    have hm : (run_kmeans ops samples cents settings.max_iterations
        settings.color_space
        ((settings.seed + round) % U32)).centroids.length ≤
        settings.auto_max_clusters := by
      refine le_trans (run_kmeans_centroids_le ops samples cents
        settings.max_iterations settings.color_space _) ?_
      exact max_le hle hcap
    split at h
    · next hempty =>
      have hres := Option.some.inj h
      rw [← hres, hempty]
      simp only [List.length_nil]
      omega
    · next hne =>
      split at h
      · have hres := Option.some.inj h
        have hlen : res.centroids.length ≤ settings.auto_max_clusters := by
          rw [← hres]
          refine le_trans (run_kmeans_centroids_le ops samples _ _ _ _) ?_
          exact max_le hm hcap
        omega
      · split at h
        · next hcapped =>
          have hres := Option.some.inj h
          have hspec := xmeans_next_spec ops samples settings
            (run_kmeans ops samples cents settings.max_iterations
              settings.color_space ((settings.seed + round) % U32))
            ((round + 17) % U32) hne
          have hdl := dedup_centroids_length_le
            (xmeans_next ops samples settings
              (run_kmeans ops samples cents settings.max_iterations
                settings.color_space ((settings.seed + round) % U32))
              ((round + 17) % U32)).1 settings.color_space
          have hlen : res.centroids.length ≤
              (dedup_centroids (xmeans_next ops samples settings
                (run_kmeans ops samples cents settings.max_iterations
                  settings.color_space ((settings.seed + round) % U32))
                ((round + 17) % U32)).1 settings.color_space).length := by
            rw [← hres]
            refine le_trans (run_kmeans_centroids_le ops samples _ _ _ _) ?_
            exact max_le (le_refl _) (le_trans hcap hcapped)
          omega
        · next hncap =>
          refine ih _ _ _ ?_ h
          omega

theorem build_initial_centroids_length_le (ops : RealOps)
    (samples : List Rat) (settings : RenderSettings) (target_k : Nat) :
    (build_initial_centroids ops samples settings target_k).length ≤
      target_k := by
  unfold build_initial_centroids
  dsimp only
  split
  · simp
  · refine le_trans (dedup_centroids_length_le _ _) ?_
    rw [List.length_take]
    exact le_trans (min_le_left _ _)
      (le_trans (min_le_left _ _) (min_le_left _ _))

theorem run_xmeans_cap2_eval :
    run_xmeans rat_ops samples_three_groups settings_xmeans_cap2 1 =
      some xmeans_cap2_result := by
  with_unfolding_all rfl

/-- C2 (amended): within one x-means round the candidate centroid list never
shrinks below the round's cluster count, and the returned cluster count is
bounded by `3/2 · auto_max_clusters` (it can exceed `auto_max_clusters`
itself, by up to half of it, because a round may push kept parents past the
ceiling after an accepted split). -/
theorem run_xmeans_cluster_count_bound (ops : RealOps) (samples : List Rat)
    (settings : RenderSettings) (fuel : Nat) (res : ClusterResult)
    (hcap : 1 ≤ settings.auto_max_clusters)
    (h : run_xmeans ops samples settings fuel = some res) :
    2 * res.centroids.length ≤ 3 * settings.auto_max_clusters ∧
    ∀ (result : ClusterResult) (round : Nat), result.centroids ≠ [] →
      result.centroids.length ≤
        (xmeans_next ops samples settings result round).1.length := by
  constructor
  · unfold run_xmeans at h
    dsimp only at h
    split at h
    · have hres := Option.some.inj h
      rw [← hres]
      simp [emptyClusterResult]
    · refine xmeans_loop_bound ops samples settings hcap fuel _ 0 res ?_ h
      have hstart : max (xmeans_start_k settings (sample_count samples)) 1 ≤
          settings.auto_max_clusters := by
        refine max_le ?_ hcap
        unfold xmeans_start_k
        exact le_trans (min_le_left _ _) (min_le_right _ _)
      split
      · simpa using hcap
      · exact le_trans (build_initial_centroids_length_le ops samples
          settings _) hstart
  · intro result round hne
    have := (xmeans_next_spec ops samples settings result round hne).1
    omega

/-- C2 counterexample: with `auto_max_clusters = 2` (the smallest value the
settings parser produces), one accepted BIC split in the very first x-means
round makes the driver return three clusters — the returned cluster count
exceeds `auto_max_clusters`. -/
theorem run_xmeans_exceeds_auto_max_counterexample :
    run_xmeans rat_ops samples_three_groups settings_xmeans_cap2 1 =
      some xmeans_cap2_result ∧
    settings_xmeans_cap2.auto_max_clusters = 2 ∧
    xmeans_cap2_result.centroids.length = 3 := by
  refine ⟨run_xmeans_cap2_eval, rfl, rfl⟩

/-- Witness for `run_xmeans_cluster_count_bound` on the concrete
cap-overflow run (`3` clusters, `2 * 3 ≤ 3 * 2`). -/
theorem run_xmeans_cluster_count_bound_witness :
    1 ≤ settings_xmeans_cap2.auto_max_clusters ∧
    2 * xmeans_cap2_result.centroids.length ≤
      3 * settings_xmeans_cap2.auto_max_clusters :=
  ⟨by decide,
    (run_xmeans_cluster_count_bound rat_ops samples_three_groups
      settings_xmeans_cap2 1 xmeans_cap2_result (by decide)
      run_xmeans_cap2_eval).1⟩

theorem top_up_random_length (samples : List Rat) (sc : Nat) :
    ∀ (need : Nat) (cents : List Vec4) (rng : Nat),
      (top_up_random samples sc need cents rng).length =
        cents.length + need := by
  intro need
  induction need with
  | zero => intro cents rng; rfl
  | succ n ih =>
    intro cents rng
    unfold top_up_random
    dsimp only
    rw [ih]
    simp only [List.length_append, List.length_cons, List.length_nil]
    omega

theorem build_initial_centroids_ne_nil (ops : RealOps) (samples : List Rat)
    (settings : RenderSettings) (target_k : Nat)
    (h1 : sample_count samples ≠ 0) (h2 : target_k ≠ 0) :
    build_initial_centroids ops samples settings target_k ≠ [] := by
  unfold build_initial_centroids
  rw [if_neg (by tauto)]
  dsimp only
  apply dedup_centroids_ne_nil
  have htgt : 1 ≤ min (min target_k (sample_count samples)) MAX_CLUSTERS := by
    have h64 : 1 ≤ MAX_CLUSTERS := by norm_num [MAX_CLUSTERS]
    omega
  intro hnil
  have hlen := congrArg List.length hnil
  rw [List.length_take] at hlen
  simp only [List.length_nil] at hlen
  split at hlen
  · next hlt =>
    rw [top_up_random_length] at hlen
    omega
  · next hge =>
    push_neg at hge
    omega

theorem xmeans_next_ne_nil (ops : RealOps) (samples : List Rat)
    (settings : RenderSettings) (result : ClusterResult) (round : Nat)
    (h : result.centroids ≠ []) :
    (xmeans_next ops samples settings result round).1 ≠ [] := by
  have hspec := (xmeans_next_spec ops samples settings result round h).1
  intro hnil
  rw [hnil] at hspec
  simp only [List.length_nil] at hspec
  have : result.centroids.length ≠ 0 := by
    simpa [List.length_eq_zero] using h
  omega

theorem gmeans_next_ne_nil (ops : RealOps) (samples : List Rat)
    (settings : RenderSettings) (result : ClusterResult) (round : Nat)
    (h : result.centroids ≠ []) :
    (gmeans_next ops samples settings result round).1 ≠ [] := by
  have hcc : result.centroids.length ≠ 0 := by
    simpa [List.length_eq_zero] using h
  have hgrow := split_fold_grow
    (gmeans_split_step ops samples settings result round)
    (gmeans_split_step_shape ops samples settings result round)
    (build_cluster_indices result.labels result.centroids.length).enum
    ([], 0)
  rw [List.enum_length, build_cluster_indices_length _ _ hcc] at hgrow
  intro hnil
  unfold gmeans_next at hnil
  dsimp only at hnil
  rw [hnil] at hgrow
  simp only [List.length_nil] at hgrow
  omega

theorem xmeans_loop_cases (ops : RealOps) (samples : List Rat)
    (settings : RenderSettings) :
    ∀ (fuel : Nat) (cents : List Vec4) (round : Nat) (res : ClusterResult),
      cents ≠ [] →
      xmeans_loop ops samples settings fuel cents round = some res →
      ∃ init seed2, init ≠ [] ∧
        res = run_kmeans ops samples init settings.max_iterations
          settings.color_space seed2 := by
  intro fuel
  induction fuel with
  | zero =>
    intro cents round res _ h
    simp [xmeans_loop] at h
  | succ n ih =>
    intro cents round res hcents h
    unfold xmeans_loop at h
    dsimp only at h
    split at h
    · exact ⟨cents, _, hcents, (Option.some.inj h).symm⟩
    · next hne =>
      split at h
      · exact ⟨_, _, hne, (Option.some.inj h).symm⟩
      · split at h
        · refine ⟨_, _, ?_, (Option.some.inj h).symm⟩
          exact dedup_centroids_ne_nil _ _
            (xmeans_next_ne_nil ops samples settings _ _ hne)
        · exact ih _ _ res
            (dedup_centroids_ne_nil _ _
              (xmeans_next_ne_nil ops samples settings _ _ hne)) h

theorem gmeans_loop_cases (ops : RealOps) (samples : List Rat)
    (settings : RenderSettings) :
    ∀ (fuel : Nat) (cents : List Vec4) (round : Nat) (res : ClusterResult),
      cents ≠ [] →
      gmeans_loop ops samples settings fuel cents round = some res →
      ∃ init seed2, init ≠ [] ∧
        res = run_kmeans ops samples init settings.max_iterations
          settings.color_space seed2 := by
  intro fuel
  induction fuel with
  | zero =>
    intro cents round res _ h
    simp [gmeans_loop] at h
  | succ n ih =>
    intro cents round res hcents h
    unfold gmeans_loop at h
    dsimp only at h
    split at h
    · exact ⟨cents, _, hcents, (Option.some.inj h).symm⟩
    · next hne =>
      split at h
      · exact ⟨_, _, hne, (Option.some.inj h).symm⟩
      · split at h
        · refine ⟨_, _, ?_, (Option.some.inj h).symm⟩
          exact dedup_centroids_ne_nil _ _
            (gmeans_next_ne_nil ops samples settings _ _ hne)
        · exact ih _ _ res
            (dedup_centroids_ne_nil _ _
              (gmeans_next_ne_nil ops samples settings _ _ hne)) h

theorem run_xmeans_cases (ops : RealOps) (samples : List Rat)
    (settings : RenderSettings) (fuel : Nat) (res : ClusterResult)
    (h : run_xmeans ops samples settings fuel = some res) :
    (res = emptyClusterResult ∧ sample_count samples = 0) ∨
    ∃ init seed2, init ≠ [] ∧
      res = run_kmeans ops samples init settings.max_iterations
        settings.color_space seed2 := by
  unfold run_xmeans at h
  dsimp only at h
  split at h
  · next hsc => exact Or.inl ⟨(Option.some.inj h).symm, hsc⟩
  · right
    refine xmeans_loop_cases ops samples settings fuel _ 0 res ?_ h
    split
    · simp
    · assumption

theorem run_gmeans_cases (ops : RealOps) (samples : List Rat)
    (settings : RenderSettings) (fuel : Nat) (res : ClusterResult)
    (h : run_gmeans ops samples settings fuel = some res) :
    (res = emptyClusterResult ∧ sample_count samples = 0) ∨
    ∃ init seed2, init ≠ [] ∧
      res = run_kmeans ops samples init settings.max_iterations
        settings.color_space seed2 := by
  unfold run_gmeans at h
  dsimp only at h
  split at h
  · next hsc => exact Or.inl ⟨(Option.some.inj h).symm, hsc⟩
  · right
    refine gmeans_loop_cases ops samples settings fuel _ 0 res ?_ h
    split
    · simp
    · assumption

theorem run_cluster_method_cases (ops : RealOps) (samples : List Rat)
    (settings : RenderSettings) (fuel : Nat) (res : ClusterResult)
    (h : run_cluster_method ops samples settings fuel = some res) :
    (res = emptyClusterResult ∧ sample_count samples = 0) ∨
    ∃ init seed2, init ≠ [] ∧
      res = run_kmeans ops samples init settings.max_iterations
        settings.color_space seed2 := by
  unfold run_cluster_method at h
  split at h
  · have hres := (Option.some.inj h).symm
    by_cases hsc : sample_count samples = 0
    · left
      constructor
      · rw [hres, run_kmeans, if_pos (Or.inl hsc)]
      · exact hsc
    · right
      refine ⟨_, settings.seed, ?_, hres⟩
      refine build_initial_centroids_ne_nil ops samples settings _ hsc ?_
      unfold target_k_for_kmeans
      have h64 : 1 ≤ MAX_CLUSTERS := by norm_num [MAX_CLUSTERS]
      omega
  · exact run_xmeans_cases ops samples settings fuel res h
  · exact run_gmeans_cases ops samples settings fuel res h

/-- C5: every label of every `ClusterResult` the engine returns (any method,
any settings) is a valid centroid index. -/
theorem cluster_result_label_validity (ops : RealOps) (samples : List Rat)
    (settings : RenderSettings) (fuel : Nat) (res : ClusterResult)
    (h : run_cluster_method ops samples settings fuel = some res) :
    ∀ l ∈ res.labels, l < res.centroids.length := by
  rcases run_cluster_method_cases ops samples settings fuel res h with
    ⟨he, _⟩ | ⟨init, seed2, _, hres⟩
  · rw [he]
    intro l hl
    simp [emptyClusterResult] at hl
  · rw [hres]
    exact run_kmeans_labels_lt ops samples init settings.max_iterations
      settings.color_space seed2

/-- Witness for `cluster_result_label_validity` on a concrete k-means run. -/
theorem cluster_result_label_validity_witness :
    (((run_cluster_method rat_ops samples_four settings_kmeans_small 1).getD
      emptyClusterResult).labels.all (fun l =>
        decide (l < ((run_cluster_method rat_ops samples_four
          settings_kmeans_small 1).getD
            emptyClusterResult).centroids.length))) = true := by
  have hsome : run_cluster_method rat_ops samples_four settings_kmeans_small
      1 = some ((run_cluster_method rat_ops samples_four
        settings_kmeans_small 1).getD emptyClusterResult) := by
    with_unfolding_all rfl
  have h := cluster_result_label_validity rat_ops samples_four
    settings_kmeans_small 1 _ hsome
  exact List.all_eq_true.2 (fun l hl => decide_eq_true (h l hl))

/-- C6: in every `ClusterResult` the engine returns, `counts` partitions the
input exactly: the counts sum to the number of input samples, and each
`counts[c]` is the number of labels equal to `c`. -/
theorem cluster_result_partition (ops : RealOps) (samples : List Rat)
    (settings : RenderSettings) (fuel : Nat) (res : ClusterResult)
    (h : run_cluster_method ops samples settings fuel = some res) :
    res.counts.sum = sample_count samples ∧
    ∀ c, res.counts.getD c 0 = res.labels.count c := by
  rcases run_cluster_method_cases ops samples settings fuel res h with
    ⟨he, hsc⟩ | ⟨init, seed2, hinit, hres⟩
  · rw [he, hsc]
    exact ⟨rfl, fun c => by simp [emptyClusterResult]⟩
  · subst hres
    by_cases hsc : sample_count samples = 0
    · rw [run_kmeans, if_pos (Or.inl hsc)]
      simp [emptyClusterResult, hsc]
    · rw [run_kmeans, if_neg (by tauto)]
      exact ⟨run_kmeans_core_counts_sum ops samples init
          settings.max_iterations settings.color_space seed2,
        fun c => run_kmeans_core_counts_count ops samples init
          settings.max_iterations settings.color_space seed2 c⟩

/-- Witness for `cluster_result_partition` on a concrete k-means run
(specialised to cluster index 0). -/
theorem cluster_result_partition_witness :
    ((run_cluster_method rat_ops samples_four settings_kmeans_small 1).getD
      emptyClusterResult).counts.sum = sample_count samples_four ∧
    ((run_cluster_method rat_ops samples_four settings_kmeans_small 1).getD
      emptyClusterResult).counts.getD 0 0 =
      ((run_cluster_method rat_ops samples_four settings_kmeans_small
        1).getD emptyClusterResult).labels.count 0 := by
  have hsome : run_cluster_method rat_ops samples_four settings_kmeans_small
      1 = some ((run_cluster_method rat_ops samples_four
        settings_kmeans_small 1).getD emptyClusterResult) := by
    with_unfolding_all rfl
  have h := cluster_result_partition rat_ops samples_four
    settings_kmeans_small 1 _ hsome
  exact ⟨h.1, h.2 0⟩

/-- C1 counterexample: a k-means run (one Lloyd iteration, two identical
samples, two distinct well-separated initial centroids, as the
Selected-Colors initializer can produce) returns TWO centroids at squared
distance `0 < 1e-8`: the empty second cluster is reseeded onto the same
sample that the first cluster's mean collapses to, and nothing deduplicates
the returned set. -/
theorem run_kmeans_duplicate_centroids_counterexample :
    (run_kmeans rat_ops samples_two_identical init_two_distinct 1
      ColorSpace.LinearRgb 7).centroids.length = 2 ∧
    feature_distance_sq
      ((run_kmeans rat_ops samples_two_identical init_two_distinct 1
        ColorSpace.LinearRgb 7).centroids.getD 0 default)
      ((run_kmeans rat_ops samples_two_identical init_two_distinct 1
        ColorSpace.LinearRgb 7).centroids.getD 1 default)
      ColorSpace.LinearRgb < 1 / 100000000 := by
  with_unfolding_all decide

/-- C1 (amended): pairwise `1e-8` separation is guaranteed for the output of
`dedup_centroids` — hence for the centroid set handed to the Lloyd loop —
but not for the returned centroids, which the Lloyd updates may collapse. -/
theorem dedup_centroids_pairwise_separated (cs : List Vec4)
    (color_space : ColorSpace) :
    List.Pairwise (fun a b =>
      ¬ feature_distance_sq a b color_space < 1 / 100000000)
      (dedup_centroids cs color_space) :=
  dedup_foldl_pairwise color_space cs [] List.Pairwise.nil

/-- C3 counterexample: with the `Random` init method (so not
Selected-Colors), ten samples and a ceiling of 64 — no clamp active — the
x-means driver starts from two initial centroids, not one. -/
theorem xmeans_starts_at_two_counterexample :
    settings_xmeans_random_init.init_method ≠ InitMethod.SelectedColors ∧
    xmeans_start_k settings_xmeans_random_init
      (sample_count samples_three_groups) = 2 ∧
    xmeans_start_k settings_xmeans_random_init
      (sample_count samples_three_groups) ≠ 1 := by
  with_unfolding_all decide

/-- C3 (amended): the x-means driver starts from `k = 2` (not 1) initial
centroids — or, under the Selected-Colors init method, from the number of
user-selected colors (at least 1) — clamped by `auto_max_clusters` and the
sample count. -/
theorem xmeans_start_k_spec (settings : RenderSettings) (sc : Nat) :
    xmeans_start_k settings sc =
      min (min (if settings.init_method = InitMethod.SelectedColors
          then max settings.selected_colors.length 1 else 2)
        settings.auto_max_clusters) sc := by
  unfold xmeans_start_k
  cases hm : settings.init_method <;> simp [hm]

/-- C4: the engine is deterministic — it is a pure function of the sample
array and the settings (which carry the seed): equal inputs give a
bit-identical `ClusterResult`.  All randomness comes from `XorShift64`
generators reseeded purely from `settings.seed` and loop counters, mirrored
exactly in this embedding. -/
theorem run_cluster_method_deterministic (ops : RealOps)
    (samples samples2 : List Rat) (settings settings2 : RenderSettings)
    (fuel : Nat) (hs : samples = samples2) (hset : settings = settings2) :
    run_cluster_method ops samples settings fuel =
      run_cluster_method ops samples2 settings2 fuel := by
  subst hs
  subst hset
  rfl

/-- Witness for `run_cluster_method_deterministic` on a concrete run. -/
theorem run_cluster_method_deterministic_witness :
    run_cluster_method rat_ops samples_four settings_kmeans_small 1 =
      run_cluster_method rat_ops samples_four settings_kmeans_small 1 :=
  run_cluster_method_deterministic rat_ops samples_four samples_four
    settings_kmeans_small settings_kmeans_small 1 rfl rfl

/-- C9: degenerate inputs yield the empty result rather than an error: zero
samples give the empty `ClusterResult` for k-means and both adaptive
drivers, and an empty initial centroid list gives the empty result for
k-means on any sample array. -/
theorem degenerate_inputs_empty_result (ops : RealOps)
    (samples samples2 : List Rat) (settings : RenderSettings)
    (fuel max_iterations max_iterations2 : Nat)
    (color_space color_space2 : ColorSpace) (seed seed2 : Nat)
    (init : List Vec4) (h : sample_count samples = 0) :
    run_kmeans ops samples init max_iterations color_space seed =
      emptyClusterResult ∧
    run_kmeans ops samples2 [] max_iterations2 color_space2 seed2 =
      emptyClusterResult ∧
    run_xmeans ops samples settings fuel = some emptyClusterResult ∧
    run_gmeans ops samples settings fuel = some emptyClusterResult := by
  refine ⟨?_, ?_, ?_, ?_⟩
  · rw [run_kmeans, if_pos (Or.inl h)]
  · rw [run_kmeans, if_pos (Or.inr rfl)]
  · unfold run_xmeans
    dsimp only
    rw [if_pos h]
  · unfold run_gmeans
    dsimp only
    rw [if_pos h]

/-- Witness for `degenerate_inputs_empty_result` with an empty sample array
(and `samples_four` for the empty-initial-centroids conjunct). -/
theorem degenerate_inputs_empty_result_witness :
    run_kmeans rat_ops [] init_two_distinct 4 ColorSpace.LinearRgb 1 =
      emptyClusterResult ∧
    run_kmeans rat_ops samples_four [] 4 ColorSpace.Oklch 2 =
      emptyClusterResult ∧
    run_xmeans rat_ops [] settings_kmeans_small 1 =
      some emptyClusterResult ∧
    run_gmeans rat_ops [] settings_kmeans_small 1 =
      some emptyClusterResult :=
  degenerate_inputs_empty_result rat_ops [] samples_four
    settings_kmeans_small 1 4 4 ColorSpace.LinearRgb ColorSpace.Oklch 1 2
    init_two_distinct rfl
